import Mathlib

/-!
Verification development for the busybee meeting-recorder pipeline.

Strings are modelled as lists of Unicode scalar values (`List Char`); JS string
indices and lengths are therefore scalar counts (JS uses UTF-16 units, which
agrees on all characters below U+10000 — every string literal appearing in the
modelled code is in that range).

JS regular expressions are modelled by a small syntax tree (`RE`) together with
a backtracking matcher that follows the ECMAScript semantics relevant to the
patterns of this repository: alternatives are tried left to right, greedy
quantifiers prefer longer repetitions, lazy quantifiers shorter ones, and the
overall match is the first successful candidate at the leftmost possible start
position.  The `i` flag is modelled by ASCII case folding (all pattern literals
are ASCII).  `\s` is modelled by the ASCII whitespace characters.
-/

namespace BusyBee

/-- The characters of a Lean string, our model of a JS string. -/
def str (s : String) : List Char := s.data

/-- ASCII lower-casing, the model of toLowerCase (all compared text is ASCII). -/
def asciiLower (c : Char) : Char :=
  if 65 ≤ c.toNat ∧ c.toNat ≤ 90 then Char.ofNat (c.toNat + 32) else c

def isAsciiUpper (c : Char) : Bool := 65 ≤ c.toNat ∧ c.toNat ≤ 90

def isAsciiLower (c : Char) : Bool := 97 ≤ c.toNat ∧ c.toNat ≤ 122

def isAsciiLetter (c : Char) : Bool := isAsciiUpper c || isAsciiLower c

def isAsciiDigit (c : Char) : Bool := 48 ≤ c.toNat ∧ c.toNat ≤ 57

/-- Word characters of the regex class backslash-w: [A-Za-z0-9_]. -/
def isWordChar (c : Char) : Bool := isAsciiLetter c || isAsciiDigit c || c = '_'

/-- ASCII whitespace, the model of the regex class backslash-s. -/
def jsWsChars : List Char := [' ', '\t', '\n', '\r', '\x0b', '\x0c']

def isJsWs (c : Char) : Bool := jsWsChars.contains c

/-- Case lowering of a whole string: the model of String.prototype.toLowerCase. -/
def toLowerJS (s : List Char) : List Char := s.map asciiLower

/-- Character equality, case-insensitive when ci is set. -/
def charEqCI (ci : Bool) (a b : Char) : Bool :=
  if ci then asciiLower a == asciiLower b else a == b

/-- The model of String.prototype.includes: substring containment. -/
def jsIncludes (hay needle : List Char) : Bool :=
  match hay with
  | [] => needle.isEmpty
  | _ :: t => needle.isPrefixOf hay || jsIncludes t needle

/-- The model of String.prototype.trim (ASCII whitespace). -/
def trimJS (s : List Char) : List Char :=
  ((s.dropWhile isJsWs).reverse.dropWhile isJsWs).reverse

/-- Half-open slice of a string by positions, used for regex captures. -/
def sliceStr (s : List Char) (a b : Nat) : List Char := (s.take b).drop a

/-- The model of String.prototype.substring: clamps both indices and swaps them
when given in decreasing order. -/
def substringJS (s : List Char) (a b : Nat) : List Char :=
  let n := s.length
  let a' := min a n
  let b' := min b n
  sliceStr s (min a' b') (max a' b')

/-- Decimal value of a digit string, the model of parseInt on a digit run. -/
def natOfDigits (l : List Char) : Nat :=
  l.foldl (fun acc c => acc * 10 + (c.toNat - 48)) 0

/-- Character classes occurring in the modelled regexes. -/
inductive Cls where
  | upperAZ
  | lowerAZ
  | digitC
  | wordC
  | wsC
  | oneOf (cs : List Char)
  | notOneOf (cs : List Char)
deriving Repr, DecidableEq

/-- Class membership; the i flag makes the letter ranges and explicit
character lists case-insensitive, exactly as in ECMAScript. -/
def evalCls (ci : Bool) : Cls → Char → Bool
  | .upperAZ, c => if ci then isAsciiLetter c else isAsciiUpper c
  | .lowerAZ, c => if ci then isAsciiLetter c else isAsciiLower c
  | .digitC, c => isAsciiDigit c
  | .wordC, c => isWordChar c
  | .wsC, c => isJsWs c
  | .oneOf cs, c => cs.any (fun d => charEqCI ci d c)
  | .notOneOf cs, c => !(cs.any (fun d => charEqCI ci d c))

/-- Syntax of the modelled regex fragment. -/
inductive RE where
  | lit (cs : List Char)
  | cls (k : Cls)
  | seq (a b : RE)
  | alt (a b : RE)
  | grp (n : Nat) (a : RE)
  | rep (lo : Nat) (hi : Option Nat) (greedy : Bool) (a : RE)
  | look (a : RE)
  | wb
  | endA
deriving Repr

/-- Sequence of a list of regexes. -/
def RE.cat : List RE → RE
  | [] => .lit []
  | [r] => r
  | r :: rs => .seq r (RE.cat rs)

/-- Alternation of a list of regexes, tried left to right. -/
def RE.alts : List RE → RE
  | [] => .lit []
  | [r] => r
  | r :: rs => .alt r (RE.alts rs)

def RE.star (g : Bool) (a : RE) : RE := .rep 0 none g a

def RE.plus (g : Bool) (a : RE) : RE := .rep 1 none g a

def RE.opt (a : RE) : RE := .rep 0 (some 1) true a

/-- Captures: group index paired with captured text; the most recent binding
for an index shadows older ones, an absent index models undefined. -/
def Caps := List (Nat × List Char)

def setCap (caps : Caps) (n : Nat) (v : List Char) : Caps := (n, v) :: caps

def getCap (caps : Caps) (n : Nat) : Option (List Char) :=
  (List.find? (fun p => p.1 == n) caps).map (fun p => p.2)

/-- Matcher state: current position and the corresponding suffix of the
subject string (kept in sync), plus the captures made so far. -/
structure MSt where
  i : Nat
  rest : List Char
  caps : Caps

/-- Consume a literal (case folding per ci); returns the remaining suffix. -/
def litMatch (ci : Bool) : List Char → List Char → Option (List Char)
  | [], rest => some rest
  | _ :: _, [] => none
  | p :: ps, c :: cs => if charEqCI ci p c then litMatch ci ps cs else none

/-- Word-boundary test at position i of s, per the regex assertion. -/
def wordBoundaryAt (s : List Char) (i : Nat) : Bool :=
  let w := fun (j : Nat) => match s.get? j with
    | some c => isWordChar c
    | none => false
  (if i = 0 then false else w (i - 1)) != w i

/-- Backtracking repetition: enumerates continuation states in ECMAScript
priority order (greedy prefers more iterations, lazy fewer); fuel bounds the
iteration count, and an iteration must consume input to continue (all modelled
repetition bodies consume at least one character). -/
def repMatch (body : MSt → List MSt) :
    Nat → Nat → Option Nat → Bool → MSt → List MSt
  | 0, _, _, _, _ => []
  | f + 1, lo, hi, g, st =>
    let stop := if lo = 0 then [st] else []
    let step :=
      if hi = some 0 then []
      else
        (body st).flatMap (fun st' =>
          if st'.i ≤ st.i then []
          else repMatch body f (lo - 1) (hi.map (fun n => n - 1)) g st')
    if g then step ++ stop else stop ++ step

/-- The backtracking matcher: all ways to match re at the given state, in
ECMAScript backtracking priority order; the head of the list is the match the
JS engine commits to. -/
def matchRE (s : List Char) (ci : Bool) : RE → MSt → List MSt
  | .lit cs, st =>
    match litMatch ci cs st.rest with
    | some rest' => [{ st with i := st.i + cs.length, rest := rest' }]
    | none => []
  | .cls k, st =>
    match st.rest with
    | [] => []
    | c :: r => if evalCls ci k c then [{ st with i := st.i + 1, rest := r }] else []
  | .seq a b, st => (matchRE s ci a st).flatMap (matchRE s ci b)
  | .alt a b, st => matchRE s ci a st ++ matchRE s ci b st
  | .grp n a, st =>
    (matchRE s ci a st).map
      (fun st' => { st' with caps := setCap st'.caps n (sliceStr s st.i st'.i) })
  | .rep lo hi g a, st => repMatch (matchRE s ci a) (s.length + 1) lo hi g st
  | .look a, st => if (matchRE s ci a st).isEmpty then [] else [st]
  | .wb, st => if wordBoundaryAt s st.i then [st] else []
  | .endA, st => if st.rest.isEmpty then [st] else []

/-- A compiled pattern: its syntax and whether the i flag is set. -/
structure Pat where
  ci : Bool
  re : RE

/-- A successful match: start position, end position, captures. -/
structure MatchRes where
  idx : Nat
  stop : Nat
  caps : Caps

/-- Attempt a match starting exactly at position i with suffix rest. -/
def matchAt (s : List Char) (p : Pat) (i : Nat) (rest : List Char) :
    Option MatchRes :=
  match (matchRE s p.ci p.re { i := i, rest := rest, caps := [] }).head? with
  | some st => some { idx := i, stop := st.i, caps := st.caps }
  | none => none

def findFromAux (s : List Char) (p : Pat) :
    Nat → Nat → List Char → Option MatchRes
  | 0, _, _ => none
  | f + 1, i, rest =>
    match matchAt s p i rest with
    | some m => some m
    | none =>
      match rest with
      | [] => none
      | _ :: r => findFromAux s p f (i + 1) r

/-- Leftmost match at a start position at or after start — the semantics of
exec with lastIndex = start. -/
def findFrom (s : List Char) (p : Pat) (start : Nat) : Option MatchRes :=
  findFromAux s p (s.length + 1 - start) start (s.drop start)

/-- The model of RegExp.prototype.test. -/
def jsTest (p : Pat) (s : List Char) : Bool := (findFrom s p 0).isSome

/-- Full text of a match. -/
def matchedText (s : List Char) (m : MatchRes) : List Char := sliceStr s m.idx m.stop

/-- The model of String.prototype.match without the g flag: first match with
its captures. -/
def jsMatchFirst (p : Pat) (s : List Char) : Option MatchRes := findFrom s p 0

def jsMatchGAux (s : List Char) (p : Pat) : Nat → Nat → List (List Char)
  | 0, _ => []
  | f + 1, start =>
    match findFrom s p start with
    | none => []
    | some m =>
      matchedText s m ::
        jsMatchGAux s p f (if m.stop = m.idx then m.idx + 1 else m.stop)

/-- The model of String.prototype.match with the g flag: the list of full
match texts, or none when there is no match (JS returns null). -/
def jsMatchG (p : Pat) (s : List Char) : Option (List (List Char)) :=
  match jsMatchGAux s p (s.length + 2) 0 with
  | [] => none
  | l => some l

def jsSplitAux (s : List Char) (p : Pat) :
    Nat → Nat → Nat → List Char → List (List Char)
  | 0, st, _, _ => [sliceStr s st s.length]
  | f + 1, st, q, rest =>
    match rest with
    | [] => [sliceStr s st s.length]
    | _ :: r =>
      match matchAt s p q rest with
      | some m =>
        if m.stop = st then jsSplitAux s p f st (q + 1) r
        else sliceStr s st q :: jsSplitAux s p f m.stop m.stop (s.drop m.stop)
      | none => jsSplitAux s p f st (q + 1) r

/-- The model of String.prototype.split with a regex separator (none of the
modelled separators carries capture groups). -/
def jsSplitRe (p : Pat) (s : List Char) : List (List Char) :=
  match s with
  | [] => if (matchAt s p 0 []).isSome then [] else [[]]
  | _ => jsSplitAux s p (s.length + 2) 0 0 s

def jsReplaceAllAux (s : List Char) (p : Pat) (rep : List Char) :
    Nat → Nat → List Char
  | 0, pos => s.drop pos
  | f + 1, pos =>
    match findFrom s p pos with
    | none => s.drop pos
    | some m =>
      if m.stop ≤ m.idx then
        sliceStr s pos m.idx ++ rep ++ sliceStr s m.idx (m.idx + 1) ++
          jsReplaceAllAux s p rep f (m.idx + 1)
      else sliceStr s pos m.idx ++ rep ++ jsReplaceAllAux s p rep f m.stop

/-- The model of String.prototype.replace with a g-flagged regex and a plain
replacement string (no dollar patterns occur in the modelled replacements). -/
def jsReplaceAll (p : Pat) (rep : List Char) (s : List Char) : List Char :=
  jsReplaceAllAux s p rep (s.length + 2) 0


/-!
## templates.ts — the roster

COMMON_NAMES from src/lib/templates.ts.  The first variant of Raymond Muna is
the mojibake string Mu√±a (U+221A U+00B1) exactly as the source file stores it.
-/

def COMMON_NAMES : List (List Char × List (List Char)) :=
  [ (str "Raymond Muna",
      [str "Mu√±a", str "Raymond", str "Muna", str "Chairman Muna", str "Chair Muna"]),
    (str "Patrick Fitial",
      [str "Vittil", str "Patrick", str "Fitial", str "Vice Chair Fitial"]),
    (str "Victoria Bellas", [str "Bellas", str "Victoria", str "Secretary Bellas"]),
    (str "Richard Farrell", [str "Farrell", str "Richard", str "Budget Officer Farrell"]),
    (str "Elvira Mesgnon",
      [str "Olivia", str "Elvira", str "Mesgnon", str "Commissioner Mesgnon"]),
    (str "Michele Joab", [str "Michele", str "Joab", str "Commissioner Joab"]),
    (str "Frances Torres", [str "Frances", str "Torres", str "Commissioner Torres"]),
    (str "Joseph Pangelinan", [str "Joseph", str "Pangelinan", str "Director Pangelinan"]),
    (str "Teresa Borja", [str "Teresa", str "Borja", str "Executive Assistant Borja"]),
    (str "Mark Scoggins", [str "Mark", str "Scoggins", str "Hearing Officer Scoggins"]),
    (str "Kadianne Mangarero",
      [str "Kadianne", str "Mangarero", str "Executive Secretary Mangarero"]) ]

/-!
## ai-processor-old-backup.ts — the Name Normalizer
-/

/-- The pattern new RegExp(backslash-b + variation + backslash-b, gi). -/
def variantPat (v : List Char) : Pat :=
  { ci := true, re := .seq .wb (.seq (.lit v) .wb) }

/-- correctNames from src/lib/ai-processor-old-backup.ts: for each roster entry
and each of its variations, globally replace whole-word case-insensitive
occurrences of the variation by the canonical name. -/
def correctNames (transcript : List Char) : List Char :=
  COMMON_NAMES.foldl
    (fun acc entry =>
      entry.2.foldl (fun acc2 v => jsReplaceAll (variantPat v) entry.1 acc2) acc)
    transcript

/-!
## file-organizer.ts — Classifier and path assignment
-/

/-- The fields of AIProcessingResult (src/types/index.ts) used by the
file organizer. -/
structure AIProcessingResult where
  transcript : List Char
  summary : List Char
  actionItems : List (List Char)
  participants : List (List Char)
  meetingType : List Char
  keyDecisions : List (List Char)

def orderKeywords : List (List Char) :=
  [ str "hereby ordered",
    str "status conference",
    str "hearing notice",
    str "scheduling order",
    str "continuance notice",
    str "final decision",
    str "administrative order",
    str "procedural notice",
    str "civil service case",
    str "csc-" ]

/-- isOfficialOrder from src/lib/file-organizer.ts. -/
def isOfficialOrder (result : AIProcessingResult) : Bool :=
  let transcript := toLowerJS result.transcript
  let hasOrderKeywords :=
    orderKeywords.any (fun keyword => jsIncludes transcript (toLowerJS keyword))
  let isCaseRelated := result.meetingType == str "case"
  let hasOrderDecisions :=
    result.keyDecisions.any (fun decision =>
      orderKeywords.any (fun keyword =>
        jsIncludes (toLowerJS decision) (toLowerJS keyword)))
  hasOrderKeywords || (isCaseRelated && hasOrderDecisions)

/-- The FOLDER_PATHS constant of the FileOrganizer class. -/
structure FolderPaths where
  recordings : List Char
  transcripts : List Char
  notes : List Char
  orders : List Char
  logs : List Char

def FOLDER_PATHS : FolderPaths :=
  { recordings := str "/Recordings"
    transcripts := str "/Transcripts"
    notes := str "/Notes"
    orders := str "/Orders_Notice"
    logs := str "/Logs" }

/-- The organized path record returned by determineFilePaths. -/
structure FilePathsOut where
  audio : List Char
  transcript : List Char
  summary : List Char
  analysis : List Char

/-- The Recording fields relevant to the organizer (the recording argument of
determineFilePaths is not consulted by its body). -/
structure Recording where
  title : List Char
  typ : List Char

/-- determineFilePaths from src/lib/file-organizer.ts. -/
def determineFilePaths (recording : Recording) (result : AIProcessingResult)
    (baseFileName : List Char) : FilePathsOut :=
  let _ := recording
  { audio := FOLDER_PATHS.recordings ++ str "/" ++ baseFileName ++ str ".wav"
    transcript :=
      FOLDER_PATHS.transcripts ++ str "/" ++ baseFileName ++ str "_transcript.txt"
    summary :=
      if isOfficialOrder result then
        FOLDER_PATHS.orders ++ str "/" ++ baseFileName ++ str "_order.md"
      else FOLDER_PATHS.notes ++ str "/" ++ baseFileName ++ str "_summary.md"
    analysis :=
      FOLDER_PATHS.transcripts ++ str "/" ++ baseFileName ++ str "_analysis.json" }

/-!
## ai-processor.ts — detailed motion extraction
-/

/-- The regex fragment [A-Z][a-z]+\s+[A-Z][a-z]+ (a two-word name). -/
def nameRE : RE :=
  RE.cat [.cls .upperAZ, .plus true (.cls .lowerAZ), .plus true (.cls .wsC),
    .cls .upperAZ, .plus true (.cls .lowerAZ)]

/-- The class [^.!?\n]. -/
def notStopCls : Cls := .notOneOf ['.', '!', '?', '\n']

/-- motionPattern of extractDetailedMotions:
(?:([A-Z][a-z]+\s+[A-Z][a-z]+)\s+)?(?:motion|move)\s+(?:to\s+)?([^.!?\n]+) with
flags gi. -/
def motionPat : Pat :=
  { ci := true
    re := RE.cat
      [ .opt (.seq (.grp 1 nameRE) (.plus true (.cls .wsC))),
        .alt (.lit (str "motion")) (.lit (str "move")),
        .plus true (.cls .wsC),
        .opt (.seq (.lit (str "to")) (.plus true (.cls .wsC))),
        .grp 2 (.plus true (.cls notStopCls)) ] }

/-- secondPattern of extractDetailedMotions:
(?:second(?:ed)?\s+by\s+([A-Z][a-z]+\s+[A-Z][a-z]+))|(?:([A-Z][a-z]+\s+[A-Z][a-z]+)\s+second(?:ed)?)
with flags gi. -/
def secondPat : Pat :=
  { ci := true
    re := RE.alt
      (RE.cat
        [ .lit (str "second"), .opt (.lit (str "ed")), .plus true (.cls .wsC),
          .lit (str "by"), .plus true (.cls .wsC), .grp 1 nameRE ])
      (RE.cat
        [ .grp 2 nameRE, .plus true (.cls .wsC),
          .lit (str "second"), .opt (.lit (str "ed")) ]) }

/-- The separator (?:motion|vote|carried|failed) with flag i used to cut the
discussion text. -/
def discussionSplitPat : Pat :=
  { ci := true
    re := RE.alts
      [.lit (str "motion"), .lit (str "vote"), .lit (str "carried"), .lit (str "failed")] }

/-- amendmentPattern: amend(?:ment)?[:\s]*([^.\n]+) with flags gi. -/
def amendPat : Pat :=
  { ci := true
    re := RE.cat
      [ .lit (str "amend"), .opt (.lit (str "ment")),
        .star true (.cls (.oneOf (':' :: jsWsChars))),
        .grp 1 (.plus true (.cls (.notOneOf ['.', '\n']))) ] }

/-- The regex (\d+)\s*(?:yes|aye|in favor) with flags gi. -/
def yesPat : Pat :=
  { ci := true
    re := RE.cat
      [ .grp 1 (.plus true (.cls .digitC)), .star true (.cls .wsC),
        RE.alts [.lit (str "yes"), .lit (str "aye"), .lit (str "in favor")] ] }

/-- The regex (\d+)\s*(?:no|nay|against) with flags gi. -/
def noPat : Pat :=
  { ci := true
    re := RE.cat
      [ .grp 1 (.plus true (.cls .digitC)), .star true (.cls .wsC),
        RE.alts [.lit (str "no"), .lit (str "nay"), .lit (str "against")] ] }

/-- The regex (\d+)\s*abstain with flags gi. -/
def abstainPat : Pat :=
  { ci := true
    re := RE.cat
      [ .grp 1 (.plus true (.cls .digitC)), .star true (.cls .wsC),
        .lit (str "abstain") ] }

/-- The regex \d+ (no flags). -/
def digitsPat : Pat := { ci := false, re := .plus true (.cls .digitC) }

/-- parseInt(x.match(re of digits)[0]); the modelled call sites apply it to a
string that starts with a digit run, so the match always exists. -/
def parseIntFirstDigits (x : List Char) : Nat :=
  match jsMatchFirst digitsPat x with
  | some m => natOfDigits (matchedText x m)
  | none => 0

structure VoteCount where
  yes : Nat
  no : Nat
  abstain : Nat
deriving Repr, DecidableEq

structure VoteInfo where
  typ : List Char
  result : List Char
  count : Option VoteCount
  details : List Char
deriving Repr, DecidableEq

structure Motion where
  number : Nat
  text : List Char
  maker : List Char
  seconder : List Char
  discussion : List Char
  amendments : Option (List (List Char))
  vote : VoteInfo
deriving Repr, DecidableEq

/-- extractVoteDetails from src/lib/ai-processor.ts. -/
def extractVoteDetails (context : List Char) : VoteInfo :=
  let lowerContext := toLowerJS context
  let voteType := str "Voice Vote"
  let voteType := if jsIncludes lowerContext (str "roll call") then str "Roll Call Vote" else voteType
  let voteType := if jsIncludes lowerContext (str "show of hands") then str "Show of Hands" else voteType
  let result := str "Unknown"
  let result :=
    if jsIncludes lowerContext (str "carried") || jsIncludes lowerContext (str "passed") then
      str "Carried" else result
  let result :=
    if jsIncludes lowerContext (str "failed") || jsIncludes lowerContext (str "defeated") then
      str "Failed" else result
  let result := if jsIncludes lowerContext (str "unanimous") then str "Unanimous" else result
  let result := if jsIncludes lowerContext (str "tabled") then str "Tabled" else result
  let yesMatch := jsMatchG yesPat context
  let noMatch := jsMatchG noPat context
  let abstainMatch := jsMatchG abstainPat context
  let count :=
    if yesMatch.isSome || noMatch.isSome || abstainMatch.isSome then
      some
        { yes := match yesMatch with
            | some (x :: _) => parseIntFirstDigits x
            | _ => 0
          no := match noMatch with
            | some (x :: _) => parseIntFirstDigits x
            | _ => 0
          abstain := match abstainMatch with
            | some (x :: _) => parseIntFirstDigits x
            | _ => 0 }
    else none
  { typ := voteType, result := result, count := count
    details := substringJS context 0 200 ++ str "..." }

/-- The JS idiom a || b on an optional string: an absent or empty value falls
through to the default. -/
def jsOr (a : Option (List Char)) (b : List Char) : List Char :=
  match a with
  | some v => if v.isEmpty then b else v
  | none => b

/-- The context window of a motion match: Math.max(0, index - 500) to
Math.min(length, index + 1000) (truncated subtraction models the clamp at 0). -/
def motionContext (transcript : List Char) (m : MatchRes) : List Char :=
  substringJS transcript (m.idx - 500) (min transcript.length (m.idx + 1000))

/-- The seconder drawn from a context window: the first secondPattern match
(group 1 or group 2), defaulting to the literal Member. -/
def seconderOfWindow (context : List Char) : List Char :=
  match findFrom context secondPat 0 with
  | none => str "Member"
  | some sm => jsOr (getCap sm.caps 1) ((getCap sm.caps 2).getD [])

/-- The motion record synthesized for one motionPattern match (the loop body
of extractDetailedMotions). -/
def motionOfMatch (transcript : List Char) (m : MatchRes) (motionNumber : Nat) :
    Motion :=
  let context := motionContext transcript m
  let discussionStart := m.stop
  let discussionEnd := min transcript.length (discussionStart + 800)
  { number := motionNumber
    text := trimJS ((getCap m.caps 2).getD [])
    maker := jsOr (getCap m.caps 1) (str "Member")
    seconder := seconderOfWindow context
    discussion :=
      trimJS
        ((jsSplitRe discussionSplitPat
            (substringJS transcript discussionStart discussionEnd)).headD [])
    amendments := (jsMatchG amendPat context).map (fun l => l.map trimJS)
    vote := extractVoteDetails context }

theorem motionOfMatch_seconder (transcript : List Char) (m : MatchRes)
    (motionNumber : Nat) :
    (motionOfMatch transcript m motionNumber).seconder =
      seconderOfWindow (motionContext transcript m) := by
  simp [motionOfMatch]

/-- The exec loop of extractDetailedMotions; lastIndex resumes at the end of
the previous match (the pattern never matches the empty string, so the loop
always advances). -/
def extractMotionsLoop (transcript : List Char) : Nat → Nat → Nat → List Motion
  | 0, _, _ => []
  | f + 1, lastIndex, motionNumber =>
    match findFrom transcript motionPat lastIndex with
    | none => []
    | some m =>
      let next := if m.stop ≤ m.idx then m.idx + 1 else m.stop
      if (trimJS ((getCap m.caps 2).getD [])).length > 10 then
        motionOfMatch transcript m motionNumber ::
          extractMotionsLoop transcript f next (motionNumber + 1)
      else extractMotionsLoop transcript f next motionNumber

/-- extractDetailedMotions from src/lib/ai-processor.ts. -/
def extractDetailedMotions (transcript : List Char) : List Motion :=
  extractMotionsLoop transcript (transcript.length + 2) 0 1

/-!
## ai-processor.ts — meeting info, attendance, agenda approval

Generic helpers for the JS call shapes used by these extractors.
-/

/-- ASCII upper-casing (the model of toUpperCase on one character). -/
def asciiUpper (c : Char) : Char :=
  if 97 ≤ c.toNat ∧ c.toNat ≤ 122 then Char.ofNat (c.toNat - 32) else c

/-- The exec-with-g loop: all matches in order, each search resuming at the end
of the previous match.  The modelled patterns never match the empty string; the
empty-match branch only guarantees progress. -/
def execAllAux (s : List Char) (p : Pat) : Nat → Nat → List MatchRes
  | 0, _ => []
  | f + 1, start =>
    match findFrom s p start with
    | none => []
    | some m =>
      m :: execAllAux s p f (if m.stop ≤ m.idx then m.idx + 1 else m.stop)

def execAll (p : Pat) (s : List Char) : List MatchRes :=
  execAllAux s p (s.length + 2) 0

/-- First pattern of a list that has a g-flagged match on s, with its list of
full match texts — the shape of the for-loop-with-break idiom over pattern
arrays. -/
def firstG : List Pat → List Char → Option (List (List Char))
  | [], _ => none
  | p :: ps, s =>
    match jsMatchG p s with
    | some l => some l
    | none => firstG ps s

/-- The class [:\s]. -/
def colonWsCls : Cls := .oneOf (':' :: jsWsChars)

/-- The class [^\n]. -/
def notNlCls : Cls := .notOneOf ['\n']

/-- The class [^.\n]. -/
def notDotNlCls : Cls := .notOneOf ['.', '\n']

/-- The class [\s\S] (any character). -/
def anyCls : Cls := .notOneOf []

/-- The dot class of a regex without the s flag. -/
def dotCls : Cls := .notOneOf ['\n', '\r', '\u2028', '\u2029']

def wsP : RE := .plus true (.cls .wsC)

def wsS : RE := .star true (.cls .wsC)

/-- Repeat a fragment exactly n or between lo and hi times (the regex braces
quantifier, greedy). -/
def reN (lo : Nat) (hi : Option Nat) (a : RE) : RE := .rep lo hi true a

structure MeetingInfo where
  title : List Char
  date : List Char
  time : Option (List Char)
  location : Option (List Char)
  typ : List Char
deriving Repr, DecidableEq

/-- The regex (?:meeting\s+(?:held\s+)?(?:on\s+)?)(\w+\s+\d{1,2},?\s+\d{4}) with gi. -/
def dateP1 : Pat :=
  { ci := true
    re := RE.cat
      [ .lit (str "meeting"), wsP,
        .opt (.seq (.lit (str "held")) wsP),
        .opt (.seq (.lit (str "on")) wsP),
        .grp 1 (RE.cat
          [ .plus true (.cls .wordC), wsP, reN 1 (some 2) (.cls .digitC),
            .opt (.lit (str ",")), wsP, reN 4 (some 4) (.cls .digitC) ]) ] }

/-- The regex (\d{1,2}\/\d{1,2}\/\d{2,4}) with g. -/
def dateP2 : Pat :=
  { ci := false
    re := .grp 1 (RE.cat
      [ reN 1 (some 2) (.cls .digitC), .lit (str "/"),
        reN 1 (some 2) (.cls .digitC), .lit (str "/"),
        reN 2 (some 4) (.cls .digitC) ]) }

/-- The regex (\d{4}-\d{2}-\d{2}) with g. -/
def dateP3 : Pat :=
  { ci := false
    re := .grp 1 (RE.cat
      [ reN 4 (some 4) (.cls .digitC), .lit (str "-"),
        reN 2 (some 2) (.cls .digitC), .lit (str "-"),
        reN 2 (some 2) (.cls .digitC) ]) }

/-- The regex (?:date[:\s]*)([^\n]+) with gi. -/
def dateP4 : Pat :=
  { ci := true
    re := RE.cat
      [ .lit (str "date"), .star true (.cls colonWsCls),
        .grp 1 (.plus true (.cls notNlCls)) ] }

/-- The regex (\d{1,2}:\d{2}\s*(?:AM|PM|am|pm)?) with gi. -/
def timeP : Pat :=
  { ci := true
    re := .grp 1 (RE.cat
      [ reN 1 (some 2) (.cls .digitC), .lit (str ":"),
        reN 2 (some 2) (.cls .digitC), wsS,
        .opt (RE.alts
          [.lit (str "AM"), .lit (str "PM"), .lit (str "am"), .lit (str "pm")]) ]) }

/-- The regex (?:meeting\s+(?:held\s+)?(?:at\s+)?)(\w+[^\n]*(?:room|hall|center|building|office))
with gi. -/
def locP1 : Pat :=
  { ci := true
    re := RE.cat
      [ .lit (str "meeting"), wsP,
        .opt (.seq (.lit (str "held")) wsP),
        .opt (.seq (.lit (str "at")) wsP),
        .grp 1 (RE.cat
          [ .plus true (.cls .wordC), .star true (.cls notNlCls),
            RE.alts
              [ .lit (str "room"), .lit (str "hall"), .lit (str "center"),
                .lit (str "building"), .lit (str "office") ] ]) ] }

/-- The regex (?:location[:\s]*)([^\n]+) with gi. -/
def locP2 : Pat :=
  { ci := true
    re := RE.cat
      [ .lit (str "location"), .star true (.cls colonWsCls),
        .grp 1 (.plus true (.cls notNlCls)) ] }

/-- extractMeetingInfo from src/lib/ai-processor.ts; today stands for the
runtime value new Date().toISOString().split(at T)[0]. -/
def extractMeetingInfo (transcript meetingTitle today : List Char) : MeetingInfo :=
  let extractedDate :=
    match firstG [dateP1, dateP2, dateP3, dateP4] transcript with
    | some l => l.headD []
    | none => today
  let extractedTime := (jsMatchG timeP transcript).map (fun l => l.headD [])
  let extractedLocation :=
    match firstG [locP1, locP2] transcript with
    | some l => some (jsOr (l.get? 1) (l.headD []))
    | none => none
  { title := meetingTitle, date := extractedDate, time := extractedTime,
    location := extractedLocation, typ := str "Board Meeting" }

structure AttendanceEntry where
  name : List Char
  role : List Char
  present : Bool
  arrivalTime : Option (List Char)
deriving Repr, DecidableEq

/-- The members table of extractDetailedAttendance: name, role, patterns. -/
def attendanceMembers : List (List Char × List Char × List (List Char)) :=
  [ (str "Raymond Muna", str "Chairperson",
      [str "raymond", str "muna", str "chairperson", str "chair"]),
    (str "Patrick Fitial", str "Vice Chair",
      [str "patrick", str "fitial", str "vice chair", str "vice-chair"]),
    (str "Victoria Bellas", str "Secretary",
      [str "victoria", str "bellas", str "secretary"]),
    (str "Richard Farrell", str "Budget Officer",
      [str "richard", str "farrell", str "budget"]),
    (str "Elvira Mesgnon", str "Commissioner", [str "elvira", str "mesgnon"]),
    (str "Michele Joab", str "Commissioner", [str "michele", str "joab"]),
    (str "Frances Torres", str "Commissioner", [str "frances", str "torres"]) ]

/-- roll\s+call[\s\S]*?(?=\n\n|\n[A-Z]|$) with gi. -/
def rollCallPat : Pat :=
  { ci := true
    re := RE.cat
      [ .lit (str "roll"), wsP, .lit (str "call"),
        .star false (.cls anyCls),
        .look (RE.alts
          [ .lit (str "\n\n"), .seq (.lit (str "\n")) (.cls .upperAZ), .endA ]) ] }

/-- The arrival regex built with a template literal; in a JS template literal
the sequences backslash-d and backslash-s are cooked to the plain letters d and
s, so the compiled pattern is
p.*?(?:arrived|joined).*?(d{1,2}:d{2}s*(?:AM|PM|am|pm)?) with flags gi. -/
def arrivalPat (p0 : List Char) : Pat :=
  { ci := true
    re := RE.cat
      [ .lit p0, .star false (.cls dotCls),
        .alt (.lit (str "arrived")) (.lit (str "joined")),
        .star false (.cls dotCls),
        .grp 1 (RE.cat
          [ reN 1 (some 2) (.lit (str "d")), .lit (str ":"),
            reN 2 (some 2) (.lit (str "d")), .star true (.lit (str "s")),
            .opt (RE.alts
              [.lit (str "AM"), .lit (str "PM"), .lit (str "am"), .lit (str "pm")]) ]) ] }

/-- The regex (\d{1,2}:\d{2}\s*(?:AM|PM|am|pm)?) with flag i only (the inner time
extraction applied to an arrival match). -/
def timeOncePat : Pat := timeP

/-- extractDetailedAttendance from src/lib/ai-processor.ts (the unused local
presentPatterns of the source is dead code and not modelled). -/
def extractDetailedAttendance (transcript : List Char) : List AttendanceEntry :=
  let transcriptLower := toLowerJS transcript
  let rollCallSection :=
    match jsMatchG rollCallPat transcriptLower with
    | some l => l.headD []
    | none => []
  attendanceMembers.map (fun mem =>
    let pats := mem.2.2
    let present :=
      if !rollCallSection.isEmpty then
        pats.any (fun p =>
          jsIncludes rollCallSection p &&
            !(jsIncludes rollCallSection (p ++ str ".*absent")))
      else false
    let present :=
      if !present then pats.any (fun p => jsIncludes transcriptLower p)
      else present
    let arrivalTime :=
      match jsMatchG (arrivalPat (pats.headD [])) transcript with
      | some l =>
        (jsMatchFirst timeOncePat (l.headD [])).map
          (fun m => matchedText (l.headD []) m)
      | none => none
    { name := mem.1, role := mem.2.1, present := present,
      arrivalTime := arrivalTime })

structure AgendaApproval where
  proposed : Bool
  approved : Bool
  motionMaker : Option (List Char)
  seconder : Option (List Char)
  vote : Option (List Char)
  amendments : Option (List (List Char))
deriving Repr, DecidableEq

/-- agenda[\s\S]*?(?=motion|new business|old business|$) with gi. -/
def agendaSectionPat : Pat :=
  { ci := true
    re := RE.cat
      [ .lit (str "agenda"), .star false (.cls anyCls),
        .look (RE.alts
          [ .lit (str "motion"), .lit (str "new business"),
            .lit (str "old business"), .endA ]) ] }

/-- The regex (?:motion|move).*?(?:approve|adopt).*?agenda with gi. -/
def agendaProposedPat : Pat :=
  { ci := true
    re := RE.cat
      [ .alt (.lit (str "motion")) (.lit (str "move")), .star false (.cls dotCls),
        .alt (.lit (str "approve")) (.lit (str "adopt")), .star false (.cls dotCls),
        .lit (str "agenda") ] }

/-- agenda.*?(?:approved|adopted|carried|passed) with gi. -/
def agendaApprovedPat1 : Pat :=
  { ci := true
    re := RE.cat
      [ .lit (str "agenda"), .star false (.cls dotCls),
        RE.alts
          [ .lit (str "approved"), .lit (str "adopted"), .lit (str "carried"),
            .lit (str "passed") ] ] }

/-- The regex (?:motion|move).*?agenda.*?(?:carried|passed) with gi. -/
def agendaApprovedPat2 : Pat :=
  { ci := true
    re := RE.cat
      [ .alt (.lit (str "motion")) (.lit (str "move")), .star false (.cls dotCls),
        .lit (str "agenda"), .star false (.cls dotCls),
        .alt (.lit (str "carried")) (.lit (str "passed")) ] }

/-- The regex ([A-Z][a-z]+\s+[A-Z][a-z]+).*?(?:motion|move).*?agenda with gi. -/
def agendaMakerPat : Pat :=
  { ci := true
    re := RE.cat
      [ .grp 1 nameRE, .star false (.cls dotCls),
        .alt (.lit (str "motion")) (.lit (str "move")), .star false (.cls dotCls),
        .lit (str "agenda") ] }

/-- second(?:ed)?\s+by\s+([A-Z][a-z]+\s+[A-Z][a-z]+)|([A-Z][a-z]+\s+[A-Z][a-z]+)\s+second
with gi. -/
def agendaSecondPat : Pat :=
  { ci := true
    re := RE.alt
      (RE.cat
        [ .lit (str "second"), .opt (.lit (str "ed")), wsP, .lit (str "by"), wsP,
          .grp 1 nameRE ])
      (RE.cat [.grp 2 nameRE, wsP, .lit (str "second")]) }

/-- The JS idiom a || b over two optional strings (undefined or empty falls
through). -/
def jsOrOpt (a b : Option (List Char)) : Option (List Char) :=
  match a with
  | some v => if v.isEmpty then b else some v
  | none => b

/-- extractAgendaApproval from src/lib/ai-processor.ts.  The two maker/seconder
lookups call String.prototype.match with a g-flagged regex, so the indexed
accesses read full-match texts (not capture groups), exactly as modelled by
jsMatchG. -/
def extractAgendaApproval (transcript : List Char) : AgendaApproval :=
  let sect :=
    match jsMatchG agendaSectionPat transcript with
    | some l => l.headD []
    | none => substringJS transcript 0 2000
  let proposed := jsTest agendaProposedPat sect
  let approved := jsTest agendaApprovedPat1 sect || jsTest agendaApprovedPat2 sect
  if proposed || approved then
    let motionMaker := (jsMatchG agendaMakerPat sect).bind (fun l => l.get? 1)
    let seconder :=
      match jsMatchG agendaSecondPat sect with
      | some l => jsOrOpt (l.get? 1) (l.get? 2)
      | none => none
    let vote :=
      if approved then
        some
          (if jsIncludes sect (str "unanimous") then str "Unanimous"
           else if jsIncludes sect (str "carried") then str "Carried"
           else if jsIncludes sect (str "passed") then str "Passed"
           else str "Approved")
      else none
    { proposed := proposed, approved := approved, motionMaker := motionMaker,
      seconder := seconder, vote := vote, amendments := none }
  else
    { proposed := proposed, approved := approved, motionMaker := none,
      seconder := none, vote := none, amendments := none }

/-!
## ai-processor.ts — business items, action items, decisions, discussions,
public comment, next meeting, and the aggregator
-/

structure BusinessItem where
  item : List Char
  discussion : List Char
  outcome : Option (List Char)
  actionTaken : Option (List Char)
deriving Repr, DecidableEq

structure NewBusinessItem where
  item : List Char
  presentedBy : Option (List Char)
  discussion : List Char
  outcome : Option (List Char)
  actionTaken : Option (List Char)
deriving Repr, DecidableEq

/-- old\s+business[\s\S]*?(?=new\s+business|motion|adjour|$) with gi. -/
def oldSectionPat : Pat :=
  { ci := true
    re := RE.cat
      [ .lit (str "old"), wsP, .lit (str "business"), .star false (.cls anyCls),
        .look (RE.alts
          [ RE.cat [.lit (str "new"), wsP, .lit (str "business")],
            .lit (str "motion"), .lit (str "adjour"), .endA ]) ] }

/-- The fragment (?:item\s*\d+|\d+\.). -/
def itemIntroRE : RE :=
  .alt (RE.cat [.lit (str "item"), wsS, .plus true (.cls .digitC)])
    (.seq (.plus true (.cls .digitC)) (.lit (str ".")))

/-- The regex (?:item\s*\d+|\d+\.)\s*([^\n]+)([\s\S]*?)(?=(?:item\s*\d+|\d+\.|new\s+business|$))
with gi. -/
def oldItemPat1 : Pat :=
  { ci := true
    re := RE.cat
      [ itemIntroRE, wsS, .grp 1 (.plus true (.cls notNlCls)),
        .grp 2 (.star false (.cls anyCls)),
        .look (RE.alts
          [ itemIntroRE, RE.cat [.lit (str "new"), wsP, .lit (str "business")],
            .endA ]) ] }

/-- The regex ([^\n]{20,}?)\s*-\s*([\s\S]*?)(?=\n[A-Z]|$) with gi. -/
def dashItemPat : Pat :=
  { ci := true
    re := RE.cat
      [ .grp 1 (.rep 20 none false (.cls notNlCls)), wsS, .lit (str "-"), wsS,
        .grp 2 (.star false (.cls anyCls)),
        .look (.alt (.seq (.lit (str "\n")) (.cls .upperAZ)) .endA) ] }

/-- The regex (?:result|outcome|decision)[:\s]*([^.\n]+) with gi. -/
def outcomePat : Pat :=
  { ci := true
    re := RE.cat
      [ RE.alts [.lit (str "result"), .lit (str "outcome"), .lit (str "decision")],
        .star true (.cls colonWsCls), .grp 1 (.plus true (.cls notDotNlCls)) ] }

/-- The regex (?:action|will|shall)[:\s]*([^.\n]+) with gi. -/
def actionTakenPat : Pat :=
  { ci := true
    re := RE.cat
      [ RE.alts [.lit (str "action"), .lit (str "will"), .lit (str "shall")],
        .star true (.cls colonWsCls), .grp 1 (.plus true (.cls notDotNlCls)) ] }

/-- The regex (?:action|will|shall|approved|denied)[:\s]*([^.\n]+) with gi. -/
def actionTakenPat2 : Pat :=
  { ci := true
    re := RE.cat
      [ RE.alts
          [ .lit (str "action"), .lit (str "will"), .lit (str "shall"),
            .lit (str "approved"), .lit (str "denied") ],
        .star true (.cls colonWsCls), .grp 1 (.plus true (.cls notDotNlCls)) ] }

/-- extractOldBusiness from src/lib/ai-processor.ts. -/
def extractOldBusiness (transcript : List Char) : List BusinessItem :=
  match jsMatchG oldSectionPat transcript with
  | none => []
  | some secs =>
    let sect := secs.headD []
    ([oldItemPat1, dashItemPat].flatMap (fun p => execAll p sect)).filterMap
      (fun m =>
        let item := trimJS ((getCap m.caps 1).getD [])
        let discussion := trimJS ((getCap m.caps 2).getD [])
        if !item.isEmpty && item.length > 10 then
          some
            { item := item, discussion := discussion,
              outcome := (jsMatchG outcomePat discussion).map (fun l => l.headD []),
              actionTaken :=
                (jsMatchG actionTakenPat discussion).map (fun l => l.headD []) }
        else none)

/-- new\s+business[\s\S]*?(?=motion|public\s+comment|adjour|$) with gi. -/
def newSectionPat : Pat :=
  { ci := true
    re := RE.cat
      [ .lit (str "new"), wsP, .lit (str "business"), .star false (.cls anyCls),
        .look (RE.alts
          [ .lit (str "motion"),
            RE.cat [.lit (str "public"), wsP, .lit (str "comment")],
            .lit (str "adjour"), .endA ]) ] }

/-- The regex (?:item\s*\d+|\d+\.)\s*([^\n]+)([\s\S]*?)(?=(?:item\s*\d+|\d+\.|public\s+comment|$))
with gi. -/
def newItemPat1 : Pat :=
  { ci := true
    re := RE.cat
      [ itemIntroRE, wsS, .grp 1 (.plus true (.cls notNlCls)),
        .grp 2 (.star false (.cls anyCls)),
        .look (RE.alts
          [ itemIntroRE, RE.cat [.lit (str "public"), wsP, .lit (str "comment")],
            .endA ]) ] }

/-- The regex (?:present|presentation).*?([^\n]{20,}?)([\s\S]*?)(?=\n[A-Z]|$) with gi. -/
def newItemPat2 : Pat :=
  { ci := true
    re := RE.cat
      [ .alt (.lit (str "present")) (.lit (str "presentation")),
        .star false (.cls dotCls),
        .grp 1 (.rep 20 none false (.cls notNlCls)),
        .grp 2 (.star false (.cls anyCls)),
        .look (.alt (.seq (.lit (str "\n")) (.cls .upperAZ)) .endA) ] }

/-- The regex ([A-Z][a-z]+\s+[A-Z][a-z]+)\s+(?:present|report|discuss) with i. -/
def presenterPat : Pat :=
  { ci := true
    re := RE.cat
      [ .grp 1 nameRE, wsP,
        RE.alts [.lit (str "present"), .lit (str "report"), .lit (str "discuss")] ] }

/-- extractNewBusiness from src/lib/ai-processor.ts. -/
def extractNewBusiness (transcript : List Char) : List NewBusinessItem :=
  match jsMatchG newSectionPat transcript with
  | none => []
  | some secs =>
    let sect := secs.headD []
    ([newItemPat1, newItemPat2].flatMap (fun p => execAll p sect)).filterMap
      (fun m =>
        let item := trimJS ((getCap m.caps 1).getD [])
        let discussion := trimJS ((getCap m.caps 2).getD [])
        if !item.isEmpty && item.length > 10 then
          some
            { item := item
              presentedBy :=
                (jsMatchFirst presenterPat discussion).bind
                  (fun pm => getCap pm.caps 1)
              discussion := discussion
              outcome := (jsMatchG outcomePat discussion).map (fun l => l.headD [])
              actionTaken :=
                (jsMatchG actionTakenPat2 discussion).map (fun l => l.headD []) }
        else none)

structure ActionItem where
  description : List Char
  assignedTo : List Char
  deadline : Option (List Char)
  relatedTo : List Char
  priority : Option (List Char)
deriving Repr, DecidableEq

/-- The sentence separator [.!?]+ used by several extractors. -/
def sentencePat : Pat :=
  { ci := false, re := .plus true (.cls (.oneOf ['.', '!', '?'])) }

/-- identifyResponsibleParty from src/lib/ai-processor.ts. -/
def identifyResponsibleParty (sentence : List Char) : List Char :=
  let lower := toLowerJS sentence
  if jsIncludes lower (str "classification") || jsIncludes lower (str "evelyn") then
    str "Classification Office"
  else if jsIncludes lower (str "budget") || jsIncludes lower (str "farrell") then
    str "Budget Officer"
  else if jsIncludes lower (str "secretary") || jsIncludes lower (str "bellas") then
    str "Secretary"
  else if jsIncludes lower (str "chair") || jsIncludes lower (str "muna") then
    str "Chairperson"
  else if jsIncludes lower (str "staff") then str "Administrative Staff"
  else if jsIncludes lower (str "commission") then str "Commission"
  else str "Staff"

/-- The regex (by|before|within)\s+([^,.\n]+) with gi. -/
def deadlinePat : Pat :=
  { ci := true
    re := RE.cat
      [ .grp 1 (RE.alts [.lit (str "by"), .lit (str "before"), .lit (str "within")]),
        wsP, .grp 2 (.plus true (.cls (.notOneOf [',', '.', '\n']))) ] }

/-- extractDeadline from src/lib/ai-processor.ts: the first match text. -/
def extractDeadline (sentence : List Char) : Option (List Char) :=
  (findFrom sentence deadlinePat 0).map (matchedText sentence)

/-- charAt(0).toUpperCase() + slice(1). -/
def capitalizeJS : List Char → List Char
  | [] => []
  | c :: t => asciiUpper c :: t

/-- identifyRelatedTopic from src/lib/ai-processor.ts (its transcript argument
is not consulted by the body). -/
def identifyRelatedTopic (sentence transcript : List Char) : List Char :=
  let _ := transcript
  let lowerSentence := toLowerJS sentence
  let topics :=
    [ str "budget", str "personnel", str "policy", str "procurement",
      str "classification", str "audit" ]
  match topics.find? (fun t => jsIncludes lowerSentence t) with
  | some t => capitalizeJS t
  | none => str "General"

/-- determinePriority from src/lib/ai-processor.ts. -/
def determinePriority (sentence : List Char) : Option (List Char) :=
  let lowerSentence := toLowerJS sentence
  if jsIncludes lowerSentence (str "urgent") || jsIncludes lowerSentence (str "immediate") then
    some (str "High")
  else if jsIncludes lowerSentence (str "soon") || jsIncludes lowerSentence (str "quickly") then
    some (str "Medium")
  else if
      jsIncludes lowerSentence (str "when possible") ||
        jsIncludes lowerSentence (str "eventually") then
    some (str "Low")
  else none

def actionIndicators : List (List Char) :=
  [ str "will", str "shall", str "must", str "need to", str "should",
    str "responsible for", str "assigned to", str "coordinate", str "prepare",
    str "submit", str "forward", str "complete", str "follow up", str "ensure",
    str "provide", str "deliver" ]

/-- extractDetailedActionItems from src/lib/ai-processor.ts. -/
def extractDetailedActionItems (transcript : List Char) : List ActionItem :=
  let sentences := jsSplitRe sentencePat transcript
  (sentences.filterMap (fun sentence =>
    let lowerSentence := toLowerJS sentence
    if actionIndicators.any (fun ind => jsIncludes lowerSentence ind) then
      let trimmedSentence := trimJS sentence
      if trimmedSentence.length > 20 && trimmedSentence.length < 300 then
        some
          { description := trimmedSentence
            assignedTo := identifyResponsibleParty sentence
            deadline := extractDeadline sentence
            relatedTo := identifyRelatedTopic sentence transcript
            priority := determinePriority sentence }
      else none
    else none)).take 15

def decisionKeywords : List (List Char) :=
  [ str "decided", str "approved", str "denied", str "rejected", str "adopted",
    str "carried", str "passed", str "failed", str "tabled", str "postponed",
    str "authorized", str "ratified", str "confirmed", str "unanimously" ]

/-- extractDetailedDecisions from src/lib/ai-processor.ts. -/
def extractDetailedDecisions (transcript : List Char) : List (List Char) :=
  let sentences := jsSplitRe sentencePat transcript
  (sentences.filterMap (fun sentence =>
    let trimmedSentence := trimJS sentence
    if trimmedSentence.length > 20 then
      let lowerSentence := toLowerJS trimmedSentence
      if decisionKeywords.any (fun k => jsIncludes lowerSentence k) then
        if jsIncludes lowerSentence (str "motion") ||
            jsIncludes lowerSentence (str "vote") ||
            jsIncludes lowerSentence (str "commission") ||
            jsIncludes lowerSentence (str "board") then
          some trimmedSentence
        else none
      else none
    else none)).take 12

structure Discussion where
  topic : List Char
  participants : List (List Char)
  keyPoints : List (List Char)
  outcome : Option (List Char)
deriving Repr, DecidableEq

/-- The regex (?:discuss(?:ion)?|present(?:ation)?|report)\s+(?:on|about|of|regarding)\s+([^.\n]{15,100})
with gi. -/
def topicPat1 : Pat :=
  { ci := true
    re := RE.cat
      [ RE.alts
          [ .seq (.lit (str "discuss")) (.opt (.lit (str "ion"))),
            .seq (.lit (str "present")) (.opt (.lit (str "ation"))),
            .lit (str "report") ],
        wsP,
        RE.alts
          [.lit (str "on"), .lit (str "about"), .lit (str "of"), .lit (str "regarding")],
        wsP, .grp 1 (.rep 15 (some 100) true (.cls notDotNlCls)) ] }

/-- The regex (?:agenda\s+item|item)\s*\d*[:\-\s]*([^.\n]{20,100}) with gi. -/
def topicPat2 : Pat :=
  { ci := true
    re := RE.cat
      [ .alt (RE.cat [.lit (str "agenda"), wsP, .lit (str "item")]) (.lit (str "item")),
        wsS, .star true (.cls .digitC),
        .star true (.cls (.oneOf (':' :: '-' :: jsWsChars))),
        .grp 1 (.rep 20 (some 100) true (.cls notDotNlCls)) ] }

/-- The regex (?:topic|subject|matter)[:\-\s]+([^.\n]{15,80}) with gi. -/
def topicPat3 : Pat :=
  { ci := true
    re := RE.cat
      [ RE.alts [.lit (str "topic"), .lit (str "subject"), .lit (str "matter")],
        .plus true (.cls (.oneOf (':' :: '-' :: jsWsChars))),
        .grp 1 (.rep 15 (some 80) true (.cls notDotNlCls)) ] }

/-- The regex ([A-Z][a-z]+\s+[A-Z][a-z]+): with g only (case-sensitive). -/
def participantPat : Pat :=
  { ci := false, re := .seq (.grp 1 nameRE) (.lit (str ":")) }

/-- p.replace(of colon, empty): remove the first colon character. -/
def removeFirstColon : List Char → List Char
  | [] => []
  | c :: t => if c = ':' then t else c :: removeFirstColon t

/-- Insertion-order deduplication, the model of Array.from(new Set(l)). -/
def dedupKeepFirst (l : List (List Char)) : List (List Char) :=
  l.foldl (fun acc x => if acc.contains x then acc else acc ++ [x]) []

/-- The regex (?:important|significant|key|main|primary|critical) with i. -/
def importantPat : Pat :=
  { ci := true
    re := RE.alts
      [ .lit (str "important"), .lit (str "significant"), .lit (str "key"),
        .lit (str "main"), .lit (str "primary"), .lit (str "critical") ] }

/-- The regex (?:concern|issue|problem|solution|recommendation) with i. -/
def concernPat : Pat :=
  { ci := true
    re := RE.alts
      [ .lit (str "concern"), .lit (str "issue"), .lit (str "problem"),
        .lit (str "solution"), .lit (str "recommendation") ] }

/-- extractKeyPoints from src/lib/ai-processor.ts. -/
def extractKeyPoints (discussionSection : List Char) : List (List Char) :=
  let sentences := jsSplitRe sentencePat discussionSection
  (sentences.filterMap (fun sentence =>
    let trimmed := trimJS sentence
    if trimmed.length > 30 && trimmed.length < 200 then
      if jsTest importantPat trimmed || jsTest concernPat trimmed then some trimmed
      else none
    else none)).take 5

/-- The regex (?:outcome|result|conclusion|decision)[:\s]*([^.\n]+) with gi. -/
def outcomeDiscPat1 : Pat :=
  { ci := true
    re := RE.cat
      [ RE.alts
          [ .lit (str "outcome"), .lit (str "result"), .lit (str "conclusion"),
            .lit (str "decision") ],
        .star true (.cls colonWsCls), .grp 1 (.plus true (.cls notDotNlCls)) ] }

/-- The regex (?:agreed|decided|resolved)[:\s]*([^.\n]+) with gi. -/
def outcomeDiscPat2 : Pat :=
  { ci := true
    re := RE.cat
      [ RE.alts [.lit (str "agreed"), .lit (str "decided"), .lit (str "resolved")],
        .star true (.cls colonWsCls), .grp 1 (.plus true (.cls notDotNlCls)) ] }

/-- The regex (?:will|shall)\s+([^.\n]+) with gi. -/
def outcomeDiscPat3 : Pat :=
  { ci := true
    re := RE.cat
      [ .alt (.lit (str "will")) (.lit (str "shall")), wsP,
        .grp 1 (.plus true (.cls notDotNlCls)) ] }

/-- extractDiscussionOutcome from src/lib/ai-processor.ts; the patterns carry
the g flag, so match[1] reads the second full match text and match[0] the
first. -/
def extractDiscussionOutcome (discussionSection : List Char) : Option (List Char) :=
  match firstG [outcomeDiscPat1, outcomeDiscPat2, outcomeDiscPat3] discussionSection with
  | some l => some (jsOr (l.get? 1) (l.headD []))
  | none => none

/-- extractDetailedDiscussions from src/lib/ai-processor.ts. -/
def extractDetailedDiscussions (transcript : List Char) : List Discussion :=
  (([topicPat1, topicPat2, topicPat3].flatMap
      (fun p => execAll p transcript)).filterMap (fun m =>
    let topic := trimJS ((getCap m.caps 1).getD [])
    if !topic.isEmpty && topic.length > 10 then
      let topicStart := m.idx
      let topicEnd := min transcript.length (topicStart + 1500)
      let discussionSection := substringJS transcript topicStart topicEnd
      let participants :=
        match jsMatchG participantPat discussionSection with
        | some ps => dedupKeepFirst (ps.map removeFirstColon)
        | none => []
      some
        { topic := topic, participants := participants,
          keyPoints := extractKeyPoints discussionSection,
          outcome := extractDiscussionOutcome discussionSection }
    else none)).take 10

structure Speaker where
  name : Option (List Char)
  topic : List Char
  summary : List Char
deriving Repr, DecidableEq

structure PublicComment where
  speakers : List Speaker
deriving Repr, DecidableEq

/-- public\s+comment[\s\S]*?(?=new\s+business|old\s+business|motion|adjour|$)
with gi. -/
def pcSectionPat : Pat :=
  { ci := true
    re := RE.cat
      [ .lit (str "public"), wsP, .lit (str "comment"), .star false (.cls anyCls),
        .look (RE.alts
          [ RE.cat [.lit (str "new"), wsP, .lit (str "business")],
            RE.cat [.lit (str "old"), wsP, .lit (str "business")],
            .lit (str "motion"), .lit (str "adjour"), .endA ]) ] }

/-- The regex ([A-Z][a-z]+(?:\s+[A-Z][a-z]+)*):([\s\S]*?)(?=\n[A-Z][a-z]+:|$) with gi. -/
def speakerPat : Pat :=
  { ci := true
    re := RE.cat
      [ .grp 1 (RE.cat
          [ .cls .upperAZ, .plus true (.cls .lowerAZ),
            .star true (RE.cat [wsP, .cls .upperAZ, .plus true (.cls .lowerAZ)]) ]),
        .lit (str ":"), .grp 2 (.star false (.cls anyCls)),
        .look (.alt
          (RE.cat
            [ .lit (str "\n"), .cls .upperAZ, .plus true (.cls .lowerAZ),
              .lit (str ":") ])
          .endA) ] }

/-- The separator [.!?] (a single character class, no quantifier). -/
def dotBangQPat : Pat := { ci := false, re := .cls (.oneOf ['.', '!', '?']) }

/-- extractPublicComment from src/lib/ai-processor.ts. -/
def extractPublicComment (transcript : List Char) : Option PublicComment :=
  match jsMatchG pcSectionPat transcript with
  | none => none
  | some secs =>
    let sect := secs.headD []
    let speakers := (execAll speakerPat sect).filterMap (fun m =>
      let name := trimJS ((getCap m.caps 1).getD [])
      let content := trimJS ((getCap m.caps 2).getD [])
      if !content.isEmpty && content.length > 20 then
        let topic :=
          let t := substringJS (trimJS ((jsSplitRe dotBangQPat content).headD [])) 0 100
          if t.isEmpty then str "General Comment" else t
        some
          { name := some name, topic := topic
            summary :=
              substringJS content 0 300 ++
                (if content.length > 300 then str "..." else []) }
      else none)
    if speakers.length > 0 then some { speakers := speakers } else none

structure NextMeeting where
  date : Option (List Char)
  time : Option (List Char)
  location : Option (List Char)
  specialTopics : Option (List (List Char))
deriving Repr, DecidableEq

/-- next\s+meeting[\s\S]*?(?=motion|adjour|$) with gi. -/
def nmSectionPat : Pat :=
  { ci := true
    re := RE.cat
      [ .lit (str "next"), wsP, .lit (str "meeting"), .star false (.cls anyCls),
        .look (RE.alts [.lit (str "motion"), .lit (str "adjour"), .endA]) ] }

/-- The regex (\w+\s+\d{1,2},?\s+\d{4})|(\d{1,2}\/\d{1,2}\/\d{2,4}) with gi. -/
def nmDatePat : Pat :=
  { ci := true
    re := .alt
      (.grp 1 (RE.cat
        [ .plus true (.cls .wordC), wsP, reN 1 (some 2) (.cls .digitC),
          .opt (.lit (str ",")), wsP, reN 4 (some 4) (.cls .digitC) ]))
      (.grp 2 (RE.cat
        [ reN 1 (some 2) (.cls .digitC), .lit (str "/"),
          reN 1 (some 2) (.cls .digitC), .lit (str "/"),
          reN 2 (some 4) (.cls .digitC) ])) }

/-- The regex (?:at|location)\s+([^.\n]+) with gi. -/
def nmLocPat : Pat :=
  { ci := true
    re := RE.cat
      [ .alt (.lit (str "at")) (.lit (str "location")), wsP,
        .grp 1 (.plus true (.cls notDotNlCls)) ] }

/-- The regex (?:agenda|topic|discuss)\s+([^.\n]+) with gi. -/
def nmTopicsPat : Pat :=
  { ci := true
    re := RE.cat
      [ RE.alts [.lit (str "agenda"), .lit (str "topic"), .lit (str "discuss")],
        wsP, .grp 1 (.plus true (.cls notDotNlCls)) ] }

/-- extractNextMeetingInfo from src/lib/ai-processor.ts. -/
def extractNextMeetingInfo (transcript : List Char) : Option NextMeeting :=
  match jsMatchG nmSectionPat transcript with
  | none => none
  | some secs =>
    let sect := secs.headD []
    some
      { date := (jsMatchG nmDatePat sect).map (fun l => l.headD [])
        time := (jsMatchG timeP sect).map (fun l => l.headD [])
        location := (jsMatchG nmLocPat sect).bind (fun l => (l.get? 1).map trimJS)
        specialTopics := (jsMatchG nmTopicsPat sect).map (fun l => l.map trimJS) }

/-- The record produced by performDeepTranscriptAnalysis.  The participants
field of the source record (extractDetailedParticipants) is not consulted by
any verified property nor by the Roberts Rules synthesizer and is omitted from
the embedding. -/
structure Analysis where
  meetingInfo : MeetingInfo
  attendance : List AttendanceEntry
  agendaApproval : AgendaApproval
  oldBusiness : List BusinessItem
  newBusiness : List NewBusinessItem
  motions : List Motion
  actionItems : List ActionItem
  decisions : List (List Char)
  discussions : List Discussion
  publicComment : Option PublicComment
  nextMeeting : Option NextMeeting
deriving Repr, DecidableEq

/-- performDeepTranscriptAnalysis from src/lib/ai-processor.ts; today stands
for the runtime current date used as the default by extractMeetingInfo. -/
def performDeepTranscriptAnalysis (transcript meetingTitle today : List Char) :
    Analysis :=
  { meetingInfo := extractMeetingInfo transcript meetingTitle today
    attendance := extractDetailedAttendance transcript
    agendaApproval := extractAgendaApproval transcript
    oldBusiness := extractOldBusiness transcript
    newBusiness := extractNewBusiness transcript
    motions := extractDetailedMotions transcript
    actionItems := extractDetailedActionItems transcript
    decisions := extractDetailedDecisions transcript
    discussions := extractDetailedDiscussions transcript
    publicComment := extractPublicComment transcript
    nextMeeting := extractNextMeetingInfo transcript }

/-!
## ai-processor.ts — the Roberts Rules Document Synthesizer

generateRobertsRulesSummaryFromAnalysis builds the markdown document by
sequential appends; the model splits it into one definition per section and
concatenates them in the source order.
-/

/-- Decimal rendering of a number interpolated into a template literal. -/
def numStr (n : Nat) : List Char := (Nat.repr n).data

def joinStrs (l : List (List Char)) : List Char := l.flatten

/-- Truthiness of an optional string (undefined or empty is falsy). -/
def optTruthy (o : Option (List Char)) : Bool :=
  match o with
  | some v => !v.isEmpty
  | none => false

/-- join(of comma-space) over a list of strings. -/
def joinCommaSpace : List (List Char) → List Char
  | [] => []
  | [x] => x
  | x :: xs => x ++ str ", " ++ joinCommaSpace xs

def rrHeader (a : Analysis) : List Char :=
  str "# " ++ a.meetingInfo.title ++ str "\n" ++
    str "## Official Board Meeting Minutes\n\n" ++
    str "**Meeting Date:** " ++ a.meetingInfo.date ++ str "\n" ++
    (match a.meetingInfo.time with
      | some t => str "**Meeting Time:** " ++ t ++ str "\n"
      | none => []) ++
    (match a.meetingInfo.location with
      | some l => str "**Location:** " ++ l ++ str "\n"
      | none => []) ++
    str "**Meeting Type:** " ++ a.meetingInfo.typ ++ str "\n\n"

def presentMembers (a : Analysis) : List AttendanceEntry :=
  a.attendance.filter (fun m => m.present)

def absentMembers (a : Analysis) : List AttendanceEntry :=
  a.attendance.filter (fun m => !m.present)

def rrAttendanceSec (a : Analysis) : List Char :=
  str "## 1. ATTENDANCE AND QUORUM\n\n" ++
    str "**Members Present (" ++ numStr (presentMembers a).length ++ str "):**\n" ++
    joinStrs ((presentMembers a).map (fun member =>
      str "- " ++ member.role ++ str " " ++ member.name ++
        (match member.arrivalTime with
          | some t => str " (arrived at " ++ t ++ str ")"
          | none => []) ++
        str "\n")) ++
    (if (absentMembers a).length > 0 then
      str "\n**Members Absent (" ++ numStr (absentMembers a).length ++ str "):**\n" ++
        joinStrs ((absentMembers a).map (fun member =>
          str "- " ++ member.role ++ str " " ++ member.name ++ str "\n"))
    else []) ++
    str "\n**Quorum Status:** " ++
    (if (presentMembers a).length ≥ 4 then str "✅ Met" else str "❌ Not Met") ++
    str " (" ++ numStr (presentMembers a).length ++ str " of 7 members present)\n\n"

def rrCallToOrderSec (a : Analysis) : List Char :=
  str "## 2. CALL TO ORDER\n\n" ++
    (match a.attendance.find? (fun m => m.role == str "Chairperson" && m.present) with
      | some chair =>
        str "The meeting was called to order by " ++ chair.role ++ str " " ++
          chair.name ++
          (match a.meetingInfo.time with
            | some t => str " at " ++ t
            | none => []) ++
          str ".\n\n"
      | none => str "Meeting called to order.\n\n")

def rrAgendaSec (a : Analysis) : List Char :=
  str "## 3. APPROVAL OF AGENDA\n\n" ++
    (if a.agendaApproval.proposed then
      str "**Motion:** " ++
        (match a.agendaApproval.motionMaker with
          | some mk => mk ++ str " "
          | none => []) ++
        str "moved to approve the agenda" ++
        (match a.agendaApproval.amendments with
          | some ams =>
            if ams.length > 0 then
              str " with the following amendments:\n" ++
                joinStrs (ams.map (fun am => str "- " ++ am ++ str "\n"))
            else str " as presented.\n"
          | none => str " as presented.\n") ++
        (match a.agendaApproval.seconder with
          | some s => str "**Second:** " ++ s ++ str "\n"
          | none => []) ++
        (match a.agendaApproval.vote with
          | some v => str "**Result:** " ++ v ++ str "\n"
          | none => [])
    else str "Agenda approval discussed.\n") ++
    str "\n"

def rrPublicCommentSec (a : Analysis) : List Char :=
  match a.publicComment with
  | some pc =>
    if pc.speakers.length > 0 then
      str "## 4. PUBLIC COMMENT\n\n" ++
        joinStrs (pc.speakers.mapIdx (fun index speaker =>
          str "### Speaker " ++ numStr (index + 1) ++
            (match speaker.name with
              | some n => str ": " ++ n
              | none => []) ++
            str "\n**Topic:** " ++ speaker.topic ++ str "\n" ++
            str "**Summary:** " ++ speaker.summary ++ str "\n\n"))
    else []
  | none => []

def rrOldBusinessSec (a : Analysis) : List Char :=
  if a.oldBusiness.length > 0 then
    str "## 5. OLD BUSINESS\n\n" ++
      joinStrs (a.oldBusiness.mapIdx (fun index item =>
        str "### " ++ numStr (index + 1) ++ str ". " ++ item.item ++ str "\n\n" ++
          str "**Discussion:** " ++ item.discussion ++ str "\n\n" ++
          (match item.outcome with
            | some o => str "**Outcome:** " ++ o ++ str "\n"
            | none => []) ++
          (match item.actionTaken with
            | some x => str "**Action Taken:** " ++ x ++ str "\n"
            | none => []) ++
          str "\n"))
  else str "## 5. OLD BUSINESS\n\nNone reported.\n\n"

def rrNewBusinessSec (a : Analysis) : List Char :=
  if a.newBusiness.length > 0 then
    str "## 6. NEW BUSINESS\n\n" ++
      joinStrs (a.newBusiness.mapIdx (fun index item =>
        str "### " ++ numStr (index + 1) ++ str ". " ++ item.item ++ str "\n\n" ++
          (match item.presentedBy with
            | some p => str "**Presented by:** " ++ p ++ str "\n"
            | none => []) ++
          str "**Discussion:** " ++ item.discussion ++ str "\n\n" ++
          (match item.outcome with
            | some o => str "**Outcome:** " ++ o ++ str "\n"
            | none => []) ++
          (match item.actionTaken with
            | some x => str "**Action Taken:** " ++ x ++ str "\n"
            | none => []) ++
          str "\n"))
  else str "## 6. NEW BUSINESS\n\nNone presented.\n\n"

def rrMotionsSec (a : Analysis) : List Char :=
  if a.motions.length > 0 then
    str "## 7. MOTIONS AND VOTING\n\n" ++
      joinStrs (a.motions.map (fun motion =>
        str "### Motion " ++ numStr motion.number ++ str ": " ++ motion.text ++
          str "\n\n" ++
          str "**Made by:** " ++ motion.maker ++ str "\n" ++
          str "**Seconded by:** " ++ motion.seconder ++ str "\n\n" ++
          (if !motion.discussion.isEmpty then
            str "**Discussion:**\n" ++ motion.discussion ++ str "\n\n"
          else []) ++
          (match motion.amendments with
            | some ams =>
              if ams.length > 0 then
                str "**Amendments:**\n" ++
                  joinStrs (ams.map (fun am => str "- " ++ am ++ str "\n")) ++
                  str "\n"
              else []
            | none => []) ++
          str "**Vote Details:**\n" ++
          str "- Type: " ++ motion.vote.typ ++ str "\n" ++
          str "- Result: " ++ motion.vote.result ++ str "\n" ++
          (match motion.vote.count with
            | some c =>
              str "- Vote Count: " ++ numStr c.yes ++ str " Yes, " ++ numStr c.no ++
                str " No" ++
                (if c.abstain > 0 then str ", " ++ numStr c.abstain ++ str " Abstain"
                 else []) ++
                str "\n"
            | none => []) ++
          str "\n"))
  else []

def rrDiscussionsSec (a : Analysis) : List Char :=
  if a.discussions.length > 0 then
    str "## 8. KEY DISCUSSIONS\n\n" ++
      joinStrs (a.discussions.mapIdx (fun index discussion =>
        str "### Discussion " ++ numStr (index + 1) ++ str ": " ++ discussion.topic ++
          str "\n\n" ++
          (if discussion.participants.length > 0 then
            str "**Participants:** " ++ joinCommaSpace discussion.participants ++
              str "\n\n"
          else []) ++
          (if discussion.keyPoints.length > 0 then
            str "**Key Points:**\n" ++
              joinStrs (discussion.keyPoints.map (fun point =>
                str "- " ++ point ++ str "\n")) ++
              str "\n"
          else []) ++
          (match discussion.outcome with
            | some o => str "**Outcome:** " ++ o ++ str "\n\n"
            | none => [])))
  else []

def rrActionItemsSec (a : Analysis) : List Char :=
  if a.actionItems.length > 0 then
    str "## 9. ACTION ITEMS\n\n" ++
      str "| Action Item | Assigned To | Deadline | Related To | Priority |\n" ++
      str "|-------------|-------------|----------|------------|----------|\n" ++
      joinStrs (a.actionItems.map (fun item =>
        let shortDescription :=
          if item.description.length > 80 then
            substringJS item.description 0 77 ++ str "..."
          else item.description
        str "| " ++ shortDescription ++ str " | " ++ item.assignedTo ++ str " | " ++
          jsOr item.deadline (str "TBD") ++ str " | " ++ item.relatedTo ++
          str " | " ++ jsOr item.priority (str "Normal") ++ str " |\n")) ++
      str "\n"
  else str "## 9. ACTION ITEMS\n\nNone identified.\n\n"

def rrNextMeetingSec (a : Analysis) : List Char :=
  match a.nextMeeting with
  | some nm =>
    if optTruthy nm.date then
      str "## 10. NEXT MEETING\n\n" ++
        str "**Date:** " ++ nm.date.getD [] ++ str "\n" ++
        (match nm.time with
          | some t => str "**Time:** " ++ t ++ str "\n"
          | none => []) ++
        (match nm.location with
          | some l => str "**Location:** " ++ l ++ str "\n"
          | none => []) ++
        (match nm.specialTopics with
          | some topics =>
            if topics.length > 0 then
              str "**Special Agenda Items:**\n" ++
                joinStrs (topics.map (fun topic => str "- " ++ topic ++ str "\n"))
            else []
          | none => []) ++
        str "\n"
    else []
  | none => []

def rrAdjournSec : List Char := str "## 11. ADJOURNMENT\n\nMeeting adjourned.\n\n"

/-- The closing block; the interpolation of analysis.transcript?.length reads a
field the analysis record does not carry, so it always renders 0. -/
def rrFooterSec (a : Analysis) : List Char :=
  str "---\n\n" ++
    str "🤖 **Generated by Bee x Vibe AI Assistant - Deep Analysis Mode**\n\n" ++
    str "**Analysis Summary:**\n" ++
    str "- 📄 Real transcript processing completed\n" ++
    str "- 👥 " ++ numStr a.attendance.length ++ str " members tracked (" ++
    numStr (presentMembers a).length ++ str " present)\n" ++
    str "- ⚖️ " ++ numStr a.motions.length ++
    str " motions analyzed with voting details\n" ++
    str "- 📋 " ++ numStr a.oldBusiness.length ++ str " old business items + " ++
    numStr a.newBusiness.length ++ str " new business items\n" ++
    str "- ✅ " ++ numStr a.actionItems.length ++
    str " action items identified with assignments\n" ++
    str "- 💬 " ++ numStr a.discussions.length ++
    str " discussion topics extracted\n" ++
    (match a.publicComment with
      | some pc => str "- 🇵 " ++ numStr pc.speakers.length ++
          str " public comment speakers\n"
      | none => []) ++
    str "- 📊 Full Roberts Rules of Order format applied\n" ++
    str "- 🔍 Content analyzed: 0 characters\n\n"

/-- generateRobertsRulesSummaryFromAnalysis from src/lib/ai-processor.ts: the
concatenation, in source order, of the sections above. -/
def generateRobertsRulesSummaryFromAnalysis (a : Analysis) : List Char :=
  rrHeader a ++ rrAttendanceSec a ++ rrCallToOrderSec a ++ rrAgendaSec a ++
    rrPublicCommentSec a ++ rrOldBusinessSec a ++ rrNewBusinessSec a ++
    rrMotionsSec a ++ rrDiscussionsSec a ++ rrActionItemsSec a ++
    rrNextMeetingSec a ++ rrAdjournSec ++ rrFooterSec a

/-!
## app/api/ai-process/route.ts — response cache and request validation

The POST handler (text branch) is modelled as a state-transition function on
the in-memory response cache.  The LLM call is an oracle value supplied per
step (its output does not influence the cache discipline), and the two
Date.now() reads of one request are modelled as a single instant.
-/

def base64Alphabet : List Char :=
  str "ABCDEFGHIJKLMNOPQRSTUVWXYZabcdefghijklmnopqrstuvwxyz0123456789+/"

def base64Digit (i : Nat) : Char := base64Alphabet.getD i '?'

/-- UTF-8 encoding of one scalar value. -/
def utf8Char (c : Char) : List Nat :=
  let n := c.toNat
  if n < 0x80 then [n]
  else if n < 0x800 then [0xc0 + n / 64, 0x80 + n % 64]
  else if n < 0x10000 then [0xe0 + n / 4096, 0x80 + n / 64 % 64, 0x80 + n % 64]
  else
    [0xf0 + n / 262144, 0x80 + n / 4096 % 64, 0x80 + n / 64 % 64, 0x80 + n % 64]

/-- Buffer.from(s): the UTF-8 bytes of the string. -/
def utf8Bytes (s : List Char) : List Nat := s.flatMap utf8Char

/-- Standard base64 of a byte list, the model of toString(of base64). -/
def base64 : List Nat → List Char
  | [] => []
  | [a] => [base64Digit (a / 4), base64Digit (a % 4 * 16), '=', '=']
  | [a, b] =>
    [base64Digit (a / 4), base64Digit (a % 4 * 16 + b / 16),
      base64Digit (b % 16 * 4), '=']
  | a :: b :: c :: rest =>
    base64Digit (a / 4) :: base64Digit (a % 4 * 16 + b / 16) ::
      base64Digit (b % 16 * 4 + c / 64) :: base64Digit (c % 64) :: base64 rest

/-- The cache key: meetingType + underscore + first 32 base64 characters of
the transcript bytes. -/
def cacheKey (meetingType transcript : List Char) : List Char :=
  meetingType ++ str "_" ++ (base64 (utf8Bytes transcript)).take 32

structure CacheEntry (α : Type) where
  result : α
  timestamp : Int
deriving Repr, DecidableEq

/-- The responseCache Map, as an association list in insertion order. -/
abbrev Cache (α : Type) : Type := List (List Char × CacheEntry α)

def cacheGet {α} (c : Cache α) (k : List Char) : Option (CacheEntry α) :=
  (List.find? (fun p => p.1 == k) c).map (fun p => p.2)

/-- Map.prototype.set: update in place when the key exists, otherwise append. -/
def cacheSet {α} (c : Cache α) (k : List Char) (e : CacheEntry α) : Cache α :=
  if (List.find? (fun p => p.1 == k) c).isSome then
    List.map (fun p => if p.1 == k then (p.1, e) else p) c
  else c ++ [(k, e)]

def cacheKeys {α} (c : Cache α) : List (List Char) := c.map (fun p => p.1)

/-- Environment of the route module: whether OPENAI_API_KEY is set, whether
ENABLE_AI_CACHE is the string true, and the fixed CACHE_TTL value. -/
structure RouteEnv where
  apiKey : Bool
  cacheEnabled : Bool
  ttl : Int

/-- The JSON body of a text request (absent fields are undefined). -/
structure ProcessRequest where
  transcript : Option (List Char)
  meetingTitle : Option (List Char)
  meetingType : List Char

/-- Observable outcome of one POST invocation. -/
inductive RouteOutcome (α : Type) where
  | badRequest (msg : List Char)
  | serverError (msg : List Char)
  | cachedResult (v : α)
  | freshResult (v : α)
deriving DecidableEq

structure StepResult (α : Type) where
  outcome : RouteOutcome α
  cache : Cache α
  llmCalled : Bool

/-- Truthiness of an optional string in a JS condition. -/
def jsFalsy (o : Option (List Char)) : Bool :=
  match o with
  | none => true
  | some s => s.isEmpty

/-- The POST handler of src/app/api/ai-process/route.ts on a JSON (text)
request: validation, API-key check, cache lookup with TTL test, then the LLM
call (oracle) and conditional cache insertion. -/
def POSTTextStep {α} (env : RouteEnv) (cache : Cache α) (req : ProcessRequest)
    (now : Int) (oracle : α) : StepResult α :=
  let transcript := req.transcript.getD []
  if transcript.isEmpty || jsFalsy req.meetingTitle then
    { outcome := .badRequest (str "Missing required fields: transcript and meetingTitle")
      cache := cache, llmCalled := false }
  else if !env.apiKey then
    { outcome := .serverError (str "OpenAI API key not configured")
      cache := cache, llmCalled := false }
  else
    let key := cacheKey req.meetingType transcript
    match cacheGet cache key with
    | some cached =>
      if now - cached.timestamp < env.ttl then
        { outcome := .cachedResult cached.result, cache := cache, llmCalled := false }
      else
        { outcome := .freshResult oracle
          cache :=
            if env.cacheEnabled then
              cacheSet cache key { result := oracle, timestamp := now }
            else cache
          llmCalled := true }
    | none =>
      { outcome := .freshResult oracle
        cache :=
          if env.cacheEnabled then
            cacheSet cache key { result := oracle, timestamp := now }
          else cache
        llmCalled := true }

/-- A sequence of POST invocations threading the module-level cache. -/
def runPOSTSteps {α} (env : RouteEnv) (steps : List (ProcessRequest × Int × α))
    (cache : Cache α) : Cache α :=
  steps.foldl (fun c s => (POSTTextStep env c s.1 s.2.1 s.2.2).cache) cache

/-!
## Bridging lemmas
-/

theorem jsIncludes_eq_true_iff (hay needle : List Char) :
    jsIncludes hay needle = true ↔ needle <:+: hay := by
  induction hay with
  | nil => simp [jsIncludes, List.isEmpty_iff, List.infix_nil]
  | cons c t ih =>
    simp [jsIncludes, ih, List.isPrefixOf_iff_prefix, List.infix_cons_iff]

theorem sliceStr_infix_self (s : List Char) (a b : Nat) : sliceStr s a b <:+: s :=
  ((List.drop_suffix a (s.take b)).isInfix).trans ((List.take_prefix b s).isInfix)

theorem substringJS_infix_self (s : List Char) (a b : Nat) : substringJS s a b <:+: s :=
  sliceStr_infix_self s _ _

theorem infix_append_left {l r : List Char} (x : List Char) (h : l <:+: r) :
    l <:+: x ++ r :=
  h.trans (List.suffix_append x r).isInfix

theorem infix_append_right {l x : List Char} (y : List Char) (h : l <:+: x) :
    l <:+: x ++ y :=
  h.trans (List.prefix_append x y).isInfix

/-!
## C1 — the Classifier decision
-/

/-- C1: isOfficialOrder returns true exactly when the lowercased transcript
contains one of the fixed order keywords, or the meeting type is case and some
key decision contains an order keyword case-insensitively; in particular any
result whose transcript contains both CSC-24-011 and hereby ordered is
classified as an official order. -/
theorem isOfficialOrder_spec :
    (∀ r : AIProcessingResult,
      isOfficialOrder r = true ↔
        ((∃ kw ∈ orderKeywords, toLowerJS kw <:+: toLowerJS r.transcript) ∨
          (r.meetingType = str "case" ∧
            ∃ d ∈ r.keyDecisions, ∃ kw ∈ orderKeywords, toLowerJS kw <:+: toLowerJS d))) ∧
    (∀ r : AIProcessingResult,
      str "CSC-24-011" <:+: r.transcript → str "hereby ordered" <:+: r.transcript →
        isOfficialOrder r = true) := by
  have h1 : ∀ r : AIProcessingResult,
      isOfficialOrder r = true ↔
        ((∃ kw ∈ orderKeywords, toLowerJS kw <:+: toLowerJS r.transcript) ∨
          (r.meetingType = str "case" ∧
            ∃ d ∈ r.keyDecisions, ∃ kw ∈ orderKeywords, toLowerJS kw <:+: toLowerJS d)) := by
    intro r
    simp [isOfficialOrder, List.any_eq_true, jsIncludes_eq_true_iff, str]
  refine ⟨h1, ?_⟩
  intro r _ h2
  refine (h1 r).mpr (Or.inl ⟨str "hereby ordered", by decide, ?_⟩)
  have hmap := List.IsInfix.map asciiLower h2
  have heq : toLowerJS (str "hereby ordered") = str "hereby ordered" := by decide
  rw [← heq]
  exact hmap

/-- Witness for C1 at a concrete processing result. -/
def c1Result : AIProcessingResult :=
  { transcript := str "In case CSC-24-011 it is hereby ordered that the hearing proceed."
    summary := []
    actionItems := []
    participants := []
    meetingType := str "case"
    keyDecisions := [] }

theorem isOfficialOrder_spec_witness :
    (str "CSC-24-011" <:+: c1Result.transcript) ∧
      (str "hereby ordered" <:+: c1Result.transcript) ∧
      isOfficialOrder c1Result = true :=
  ⟨by decide, by decide, isOfficialOrder_spec.2 c1Result (by decide) (by decide)⟩

/-!
## C2 — the Name Normalizer is not idempotent
-/

set_option maxRecDepth 100000 in
/-- C2 counterexample: on the one-word transcript Muna, one application of
correctNames yields Raymond Muna, but a second application expands the
canonical name again, so the normalizer is not idempotent. -/
theorem correctNames_not_idempotent :
    correctNames (correctNames (str "Muna")) ≠ correctNames (str "Muna") := by
  decide

/-- Whether some roster variant matches (whole word, case-insensitive)
somewhere in t. -/
def hasVariantMatch (t : List Char) : Bool :=
  COMMON_NAMES.any (fun e => e.2.any (fun v => (findFrom t (variantPat v) 0).isSome))

theorem jsReplaceAll_of_no_match {p : Pat} {rep s : List Char}
    (h : findFrom s p 0 = none) : jsReplaceAll p rep s = s := by
  show jsReplaceAllAux s p rep (s.length + 2) 0 = s
  rw [jsReplaceAllAux, h]
  exact List.drop_zero s

theorem foldl_variants_id (canonical t : List Char) (vs : List (List Char))
    (h : ∀ v ∈ vs, findFrom t (variantPat v) 0 = none) :
    vs.foldl (fun acc2 v => jsReplaceAll (variantPat v) canonical acc2) t = t := by
  induction vs with
  | nil => rfl
  | cons v vs ih =>
    have hv : jsReplaceAll (variantPat v) canonical t = t :=
      jsReplaceAll_of_no_match (h v (List.mem_cons_self v vs))
    simp only [List.foldl_cons, hv]
    exact ih (fun w hw => h w (List.mem_cons_of_mem v hw))

/-- C2 amended: correctNames is not idempotent in general (see the
counterexample); on transcripts in which no roster variant matches as a
case-insensitive whole word it is the identity, hence idempotent there. -/
theorem correctNames_idempotent_of_no_variant (t : List Char)
    (h : hasVariantMatch t = false) :
    correctNames t = t ∧ correctNames (correctNames t) = correctNames t := by
  have hall : ∀ e ∈ COMMON_NAMES, ∀ v ∈ e.2, findFrom t (variantPat v) 0 = none := by
    intro e he v hv
    cases hf : findFrom t (variantPat v) 0 with
    | none => rfl
    | some m =>
      exfalso
      have ht : hasVariantMatch t = true := by
        unfold hasVariantMatch
        rw [List.any_eq_true]
        exact ⟨e, he, by rw [List.any_eq_true]; exact ⟨v, hv, by rw [hf]; rfl⟩⟩
      rw [h] at ht
      exact Bool.false_ne_true ht
  have hid : correctNames t = t := by
    unfold correctNames
    have : ∀ es : List (List Char × List (List Char)),
        (∀ e ∈ es, ∀ v ∈ e.2, findFrom t (variantPat v) 0 = none) →
        es.foldl
          (fun acc entry =>
            entry.2.foldl (fun acc2 v => jsReplaceAll (variantPat v) entry.1 acc2) acc)
          t = t := by
      intro es
      induction es with
      | nil => intro _; rfl
      | cons e es ih =>
        intro hes
        have he : e.2.foldl (fun acc2 v => jsReplaceAll (variantPat v) e.1 acc2) t = t :=
          foldl_variants_id e.1 t e.2 (hes e (List.mem_cons_self e es))
        simp only [List.foldl_cons, he]
        exact ih (fun x hx => hes x (List.mem_cons_of_mem e hx))
    exact this COMMON_NAMES hall
  exact ⟨hid, by rw [hid]; exact hid⟩

theorem correctNames_idempotent_witness :
    hasVariantMatch (str "hello world") = false ∧
      correctNames (correctNames (str "hello world")) = correctNames (str "hello world") :=
  ⟨by decide, (correctNames_idempotent_of_no_variant (str "hello world") (by decide)).2⟩

/-!
## C3 — the Muña roster variant is mojibake in the source
-/

/-- C3: the roster stores the variant as the mojibake Mu√±a rather than Muña,
so a transcript containing Muña passes through correctNames unchanged: the
output still contains Muña and never gains Raymond Muna. -/
theorem correctNames_muna_unchanged :
    correctNames (str "Muña seconded the motion.") = str "Muña seconded the motion." ∧
      jsIncludes (str "Muña seconded the motion.") (str "Muña") = true ∧
      jsIncludes (correctNames (str "Muña seconded the motion.")) (str "Raymond Muna") =
        false := by
  refine ⟨by decide, by decide, by decide⟩

/-!
## C10 — the classifier decision only selects the summary destination
-/

/-- C10: determineFilePaths pins the audio path under /Recordings and the
transcript and analysis paths under /Transcripts independently of the
processing result; only the summary path switches on isOfficialOrder between
/Orders_Notice and /Notes. -/
theorem determineFilePaths_frame (rec rec' : Recording)
    (res res' : AIProcessingResult) (base : List Char) :
    (determineFilePaths rec res base).audio = str "/Recordings/" ++ base ++ str ".wav" ∧
    (determineFilePaths rec res base).transcript =
      str "/Transcripts/" ++ base ++ str "_transcript.txt" ∧
    (determineFilePaths rec res base).analysis =
      str "/Transcripts/" ++ base ++ str "_analysis.json" ∧
    (determineFilePaths rec res base).audio = (determineFilePaths rec' res' base).audio ∧
    (determineFilePaths rec res base).transcript =
      (determineFilePaths rec' res' base).transcript ∧
    (determineFilePaths rec res base).analysis =
      (determineFilePaths rec' res' base).analysis ∧
    (determineFilePaths rec res base).summary =
      (if isOfficialOrder res then str "/Orders_Notice/" ++ base ++ str "_order.md"
       else str "/Notes/" ++ base ++ str "_summary.md") := by
  exact ⟨rfl, rfl, rfl, rfl, rfl, rfl, rfl⟩

/-!
## C4 — seconder selection of the motion extractor
-/

/-- The transcript used to refute C4: the same person makes and seconds the
motion while an alternate seconder (Victoria Bellas) appears later in the
lookahead window. -/
def t4c : List Char :=
  str "Patrick Fitial motion to approve the budget. Patrick Fitial seconded. Victoria Bellas seconded."

set_option maxRecDepth 100000 in
/-- C4 counterexample: on t4c the extractor emits exactly one motion whose
maker and seconder are both Patrick Fitial even though the window holds a
second seconder match naming Victoria Bellas, and the seconder is not the
literal Member — refuting both clauses of the claimed invariant. -/
theorem extractDetailedMotions_same_seconder :
    ((extractDetailedMotions t4c).map fun m => (m.maker, m.seconder)) =
        [(str "Patrick Fitial", str "Patrick Fitial")] ∧
      ((execAll secondPat t4c).map fun m => getCap m.caps 2) =
        [some (str "Patrick Fitial"), some (str "Victoria Bellas")] := by
  constructor
  · decide
  · decide

set_option maxRecDepth 100000 in
/-- C4 amended: the extractor never compares maker against seconder; every
synthesized motion takes as seconder the name of the first secondPattern match
inside its context window when one exists, and the literal Member otherwise. -/
theorem extractDetailedMotions_seconder (t : List Char) (m : Motion)
    (hm : m ∈ extractDetailedMotions t) :
    ∃ ctx, ctx <:+: t ∧ m.seconder = seconderOfWindow ctx := by
  unfold extractDetailedMotions at hm
  revert hm
  generalize (t.length + 2) = fuel
  generalize 0 = li
  generalize 1 = num
  induction fuel generalizing li num with
  | zero => intro hm; simp [extractMotionsLoop] at hm
  | succ f ih =>
    intro hm
    cases hf : findFrom t motionPat li with
    | none =>
      rw [extractMotionsLoop, hf] at hm
      simp at hm
    | some mm =>
      have hstep : extractMotionsLoop t (f + 1) li num =
          if (trimJS ((getCap mm.caps 2).getD [])).length > 10 then
            motionOfMatch t mm num ::
              extractMotionsLoop t f
                (if mm.stop ≤ mm.idx then mm.idx + 1 else mm.stop) (num + 1)
          else
            extractMotionsLoop t f
              (if mm.stop ≤ mm.idx then mm.idx + 1 else mm.stop) num := by
        rw [extractMotionsLoop, hf]
      rw [hstep] at hm
      split at hm
      · rcases List.mem_cons.mp hm with rfl | htail
        · exact ⟨motionContext t mm, substringJS_infix_self t _ _,
            motionOfMatch_seconder t mm num⟩
        · exact ih (if mm.stop ≤ mm.idx then mm.idx + 1 else mm.stop) (num + 1) htail
      · exact ih (if mm.stop ≤ mm.idx then mm.idx + 1 else mm.stop) num hm

/-- The single motion extracted from t4c, used to instantiate the amended
seconder theorem. -/
def motionW : Motion :=
  { number := 1
    text := str "approve the budget"
    maker := str "Patrick Fitial"
    seconder := str "Patrick Fitial"
    discussion := str ". Patrick Fitial seconded. Victoria Bellas seconded."
    amendments := none
    vote :=
      { typ := str "Voice Vote"
        result := str "Unknown"
        count := none
        details :=
          str "Patrick Fitial motion to approve the budget. Patrick Fitial seconded. Victoria Bellas seconded...." } }

set_option maxRecDepth 100000 in
theorem extractDetailedMotions_seconder_witness :
    motionW ∈ extractDetailedMotions t4c ∧
      ∃ ctx, ctx <:+: t4c ∧ motionW.seconder = seconderOfWindow ctx :=
  ⟨by decide, extractDetailedMotions_seconder t4c motionW (by decide)⟩

/-!
## C5 — the agenda-approval scenario transcript
-/

/-- The transcript of end-to-end scenario 1. -/
def t5c : List Char :=
  str "Raymond Muna called the meeting to order. Patrick Fitial moved to approve the agenda. Victoria Bellas seconded. Motion carried unanimously."

set_option maxRecDepth 100000 in
/-- C5 counterexample: the analysis of the scenario transcript yields exactly
one motion and its maker is not Patrick Fitial (the phrase moved does not
match the motion pattern, which requires the literal motion or move followed
by whitespace, so no maker name is captured). -/
theorem scenario1_maker_not_fitial :
    (extractDetailedMotions t5c).length = 1 ∧
      ∀ m ∈ extractDetailedMotions t5c, m.maker ≠ str "Patrick Fitial" := by
  constructor
  · decide
  · decide

set_option maxRecDepth 100000 in
/-- C5 amended: on the scenario transcript the analysis produces exactly one
motion, with maker the literal Member, seconder Victoria Bellas, and vote
result Unanimous (which contains unanimous case-insensitively). -/
theorem scenario1_motions (title today : List Char) :
    ((performDeepTranscriptAnalysis t5c title today).motions.map fun m =>
        (m.number, m.text, m.maker, m.seconder, m.vote.result)) =
      [(1, str "carried unanimously", str "Member", str "Victoria Bellas",
        str "Unanimous")] ∧
    ∀ m ∈ (performDeepTranscriptAnalysis t5c title today).motions,
      jsIncludes (toLowerJS m.vote.result) (str "unanimous") = true := by
  constructor
  · rfl
  · have hall : ∀ m ∈ extractDetailedMotions t5c,
        jsIncludes (toLowerJS m.vote.result) (str "unanimous") = true := by decide
    intro m hm
    exact hall m hm

/-!
## C6 — the Analysis Aggregator on the empty transcript
-/

/-- C6 counterexample: on the empty transcript the attendance list is not
empty — the extractor always emits one entry per known commission member. -/
theorem emptyTranscript_attendance_not_empty :
    (performDeepTranscriptAnalysis [] (str "Weekly Meeting") (str "2026-10-11")).attendance ≠
      [] := by
  decide

/-- C6 amended: on the empty transcript every analysed list is empty and the
meeting date defaults to today — except attendance, which holds the seven
known commission members, each marked not present. -/
theorem performDeepTranscriptAnalysis_empty (title today : List Char) :
    (performDeepTranscriptAnalysis [] title today).meetingInfo.date = today ∧
    (performDeepTranscriptAnalysis [] title today).motions = [] ∧
    (performDeepTranscriptAnalysis [] title today).oldBusiness = [] ∧
    (performDeepTranscriptAnalysis [] title today).newBusiness = [] ∧
    (performDeepTranscriptAnalysis [] title today).actionItems = [] ∧
    (performDeepTranscriptAnalysis [] title today).decisions = [] ∧
    (performDeepTranscriptAnalysis [] title today).discussions = [] ∧
    (performDeepTranscriptAnalysis [] title today).attendance =
      attendanceMembers.map
        (fun mem =>
          { name := mem.1, role := mem.2.1, present := false, arrivalTime := none }) :=
  ⟨rfl, rfl, rfl, rfl, rfl, rfl, rfl, rfl⟩

/-!
## C7 — no empty sections in the direct-assembly document
-/

/-- C7: when a category list is empty the synthesizer either renders the
section with a literal None-style body (old business, new business, action
items — and that body occurs verbatim in the assembled document) or omits the
section entirely (public comment, motions, key discussions contribute the
empty string). -/
theorem generateRobertsRules_no_empty_sections (a : Analysis) :
    (a.oldBusiness = [] →
      rrOldBusinessSec a = str "## 5. OLD BUSINESS\n\nNone reported.\n\n" ∧
        str "## 5. OLD BUSINESS\n\nNone reported.\n\n" <:+:
          generateRobertsRulesSummaryFromAnalysis a) ∧
    (a.newBusiness = [] →
      rrNewBusinessSec a = str "## 6. NEW BUSINESS\n\nNone presented.\n\n" ∧
        str "## 6. NEW BUSINESS\n\nNone presented.\n\n" <:+:
          generateRobertsRulesSummaryFromAnalysis a) ∧
    (a.actionItems = [] →
      rrActionItemsSec a = str "## 9. ACTION ITEMS\n\nNone identified.\n\n" ∧
        str "## 9. ACTION ITEMS\n\nNone identified.\n\n" <:+:
          generateRobertsRulesSummaryFromAnalysis a) ∧
    (a.motions = [] → rrMotionsSec a = []) ∧
    (a.discussions = [] → rrDiscussionsSec a = []) ∧
    ((∀ pc, a.publicComment = some pc → pc.speakers = []) →
      rrPublicCommentSec a = []) := by
  refine ⟨?_, ?_, ?_, ?_, ?_, ?_⟩
  · intro h
    have hsec : rrOldBusinessSec a = str "## 5. OLD BUSINESS\n\nNone reported.\n\n" := by
      simp [rrOldBusinessSec, h]
    have hinf : rrOldBusinessSec a <:+: generateRobertsRulesSummaryFromAnalysis a := by
      unfold generateRobertsRulesSummaryFromAnalysis
      exact infix_append_right _ (infix_append_right _ (infix_append_right _
        (infix_append_right _ (infix_append_right _ (infix_append_right _
          (infix_append_right _ ((List.suffix_append _ _).isInfix)))))))
    exact ⟨hsec, hsec ▸ hinf⟩
  · intro h
    have hsec : rrNewBusinessSec a = str "## 6. NEW BUSINESS\n\nNone presented.\n\n" := by
      simp [rrNewBusinessSec, h]
    have hinf : rrNewBusinessSec a <:+: generateRobertsRulesSummaryFromAnalysis a := by
      unfold generateRobertsRulesSummaryFromAnalysis
      exact infix_append_right _ (infix_append_right _ (infix_append_right _
        (infix_append_right _ (infix_append_right _ (infix_append_right _
          ((List.suffix_append _ _).isInfix))))))
    exact ⟨hsec, hsec ▸ hinf⟩
  · intro h
    have hsec : rrActionItemsSec a = str "## 9. ACTION ITEMS\n\nNone identified.\n\n" := by
      simp [rrActionItemsSec, h]
    have hinf : rrActionItemsSec a <:+: generateRobertsRulesSummaryFromAnalysis a := by
      unfold generateRobertsRulesSummaryFromAnalysis
      exact infix_append_right _ (infix_append_right _ (infix_append_right _
        ((List.suffix_append _ _).isInfix)))
    exact ⟨hsec, hsec ▸ hinf⟩
  · intro h
    simp [rrMotionsSec, h]
  · intro h
    simp [rrDiscussionsSec, h]
  · intro h
    cases hpc : a.publicComment with
    | none => simp [rrPublicCommentSec, hpc]
    | some pc => simp [rrPublicCommentSec, hpc, h pc hpc]

/-- The analysis of the empty transcript, used to instantiate the
no-empty-sections law. -/
def emptyAnalysis : Analysis :=
  performDeepTranscriptAnalysis [] [] (str "2026-10-11")

theorem generateRobertsRules_no_empty_sections_witness :
    (emptyAnalysis.oldBusiness = [] ∧
      str "## 5. OLD BUSINESS\n\nNone reported.\n\n" <:+:
        generateRobertsRulesSummaryFromAnalysis emptyAnalysis) ∧
    (emptyAnalysis.motions = [] ∧ rrMotionsSec emptyAnalysis = []) ∧
    rrPublicCommentSec emptyAnalysis = [] :=
  ⟨⟨rfl, ((generateRobertsRules_no_empty_sections emptyAnalysis).1 rfl).2⟩,
    ⟨rfl, (generateRobertsRules_no_empty_sections emptyAnalysis).2.2.2.1 rfl⟩,
    (generateRobertsRules_no_empty_sections emptyAnalysis).2.2.2.2.2
      (fun pc hpc => by
        rw [show emptyAnalysis.publicComment = none from rfl] at hpc
        cases hpc)⟩

/-!
## C8 — cache discipline of the POST handler
-/

theorem cacheKeys_map_set {α : Type} (c : Cache α) (k' : List Char)
    (e : CacheEntry α) :
    cacheKeys (List.map (fun p => if p.1 == k' then (p.1, e) else p) c) =
      cacheKeys c := by
  induction c with
  | nil => rfl
  | cons p t ih =>
    show (if p.1 == k' then (p.1, e) else p).1 ::
        cacheKeys (List.map (fun p => if p.1 == k' then (p.1, e) else p) t) =
      p.1 :: cacheKeys t
    rw [ih]
    congr 1
    split <;> rfl

theorem cacheSet_keys_mono {α : Type} {c : Cache α} {k : List Char}
    (hk : k ∈ cacheKeys c) (k' : List Char) (e : CacheEntry α) :
    k ∈ cacheKeys (cacheSet c k' e) := by
  unfold cacheSet
  split
  · rw [cacheKeys_map_set]
    exact hk
  · unfold cacheKeys
    rw [List.map_append]
    exact List.mem_append_left _ hk

theorem POSTTextStep_keys_mono {α : Type} (env : RouteEnv) (cache : Cache α)
    (req : ProcessRequest) (now : Int) (oracle : α) {k : List Char}
    (hk : k ∈ cacheKeys cache) :
    k ∈ cacheKeys (POSTTextStep env cache req now oracle).cache := by
  unfold POSTTextStep
  dsimp only
  split
  · exact hk
  · split
    · exact hk
    · split
      · split
        · exact hk
        · split
          · exact cacheSet_keys_mono hk _ _
          · exact hk
      · split
        · exact cacheSet_keys_mono hk _ _
        · exact hk

/-- C8: the response cache never loses a key across any sequence of POST
invocations, and an invocation is answered from the cache exactly when it is a
valid request, the API key is configured, and the stored entry for its key is
younger than the fixed TTL — stale entries are only bypassed, never removed. -/
theorem responseCache_discipline (α : Type) :
    (∀ (env : RouteEnv) (steps : List (ProcessRequest × Int × α)) (cache : Cache α)
        (k : List Char),
      k ∈ cacheKeys cache → k ∈ cacheKeys (runPOSTSteps env steps cache)) ∧
    (∀ (env : RouteEnv) (cache : Cache α) (req : ProcessRequest) (now : Int)
        (oracle : α),
      (∃ v, (POSTTextStep env cache req now oracle).outcome = .cachedResult v) ↔
        (((req.transcript.getD []).isEmpty || jsFalsy req.meetingTitle) = false ∧
          env.apiKey = true ∧
          ∃ e,
            cacheGet cache (cacheKey req.meetingType (req.transcript.getD [])) =
              some e ∧
            now - e.timestamp < env.ttl)) := by
  constructor
  · intro env steps
    induction steps with
    | nil => intro cache k hk; exact hk
    | cons s rest ih =>
      intro cache k hk
      exact ih _ k (POSTTextStep_keys_mono env cache s.1 s.2.1 s.2.2 hk)
  · intro env cache req now oracle
    by_cases hval : ((req.transcript.getD []).isEmpty || jsFalsy req.meetingTitle) = true
    · simp [POSTTextStep, hval]
    · have hvf : ((req.transcript.getD []).isEmpty || jsFalsy req.meetingTitle) = false :=
        Bool.eq_false_iff.mpr hval
      by_cases hkey : env.apiKey = true
      · cases hget : cacheGet cache (cacheKey req.meetingType (req.transcript.getD [])) with
        | none => simp [POSTTextStep, hvf, hkey, hget]
        | some e =>
          by_cases hfresh : now - e.timestamp < env.ttl
          · simp [POSTTextStep, hvf, hkey, hget, hfresh]
          · simp [POSTTextStep, hvf, hkey, hget, hfresh]
      · have hkf : env.apiKey = false := Bool.eq_false_iff.mpr hkey
        simp [POSTTextStep, hvf, hkf]

def env0 : RouteEnv := { apiKey := true, cacheEnabled := true, ttl := 86400000 }

def cache0 : Cache Nat := [(str "k", { result := 5, timestamp := 0 })]

def req0 : ProcessRequest :=
  { transcript := some (str "hello"), meetingTitle := some (str "Board Meeting"),
    meetingType := str "board" }

theorem responseCache_discipline_witness :
    str "k" ∈ cacheKeys (runPOSTSteps env0 [(req0, 3, 7)] cache0) :=
  (responseCache_discipline Nat).1 env0 [(req0, 3, 7)] cache0 (str "k") (by decide)

/-!
## C9 — eager rejection of malformed requests
-/

/-- C9: a request with an empty (or absent) transcript or a missing (or empty)
meeting title is rejected with the 400 validation message before any work: the
cache is untouched and the LLM is never invoked. -/
theorem POST_rejects_malformed (α : Type) (env : RouteEnv) (cache : Cache α)
    (req : ProcessRequest) (now : Int) (oracle : α)
    (h : req.transcript.getD [] = [] ∨ jsFalsy req.meetingTitle = true) :
    POSTTextStep env cache req now oracle =
      { outcome :=
          .badRequest (str "Missing required fields: transcript and meetingTitle")
        cache := cache
        llmCalled := false } := by
  have hb : ((req.transcript.getD []).isEmpty || jsFalsy req.meetingTitle) = true := by
    rcases h with h | h
    · simp [h]
    · simp [h]
  simp [POSTTextStep, hb]

def reqEmpty : ProcessRequest :=
  { transcript := none, meetingTitle := some (str "Board Meeting"),
    meetingType := str "board" }

theorem POST_rejects_malformed_witness :
    POSTTextStep env0 ([] : Cache Nat) reqEmpty 0 0 =
      { outcome :=
          .badRequest (str "Missing required fields: transcript and meetingTitle")
        cache := []
        llmCalled := false } :=
  POST_rejects_malformed Nat env0 [] reqEmpty 0 0 (Or.inl rfl)

end BusyBee

